import Mathlib

/-!
# Verification of the Ad Clip Generation Orchestrator

Shallow embedding of `src/app/api/veo/route.ts` (the Veo ad-generation API
route of the Breakout repository).  Pure helpers of the route are translated
directly; the effectful parts (frame-extraction subprocess, the generative
model's submit/poll/resolve pipeline, HTTP thumbnail fetches, ffmpeg
invocations) are modelled as explicit oracles passed to the orchestrator:
an oracle value records the complete outcome of one external interaction.
JavaScript numbers are modelled by `ℚ` (all arithmetic the route performs
on them — `Math.max`, `Math.floor`, division by 1000 — is exact on the
values it is applied to), JS strings by `String`, and the insertion-ordered
JS `Map` by an association list in insertion order.
-/

namespace Breakout

/-! ## Request payload and product validation (route.ts lines 12-40, 216-244) -/

/-- The raw `product` object of the request body.  A field of a JS object can
be absent or hold a non-string value; `none` models both (the route only ever
tests `typeof product[key] === "string"`).  `benefits` is `none` when the
value is not an array. -/
structure AdProductPayload where
  id : Option String := none
  brandName : Option String := none
  productName : Option String := none
  tagline : Option String := none
  visualDescription : Option String := none
  actionScript : Option String := none
  benefits : Option (List String) := none
  colorFrom : Option String := none
  colorTo : Option String := none
deriving DecidableEq, Repr

/-- A product payload that passed `validateProduct`: every required scalar
field was a string (the route then uses them as strings). -/
structure AdProduct where
  id : String
  brandName : String
  productName : String
  tagline : String
  visualDescription : String
  actionScript : String
  benefits : List String
  colorFrom : String
  colorTo : String
deriving DecidableEq, Repr

/-- The parsed JSON request body (`VeoRequestBody`).  `Option` models absent
fields and fields of the wrong runtime type; numeric fields are `ℚ`
(`NaN`/`Infinity` also map to `none`, matching the `Number.isFinite`
guards). -/
structure VeoRequestBody where
  videoId : Option String := none
  timestampSeconds : Option ℚ := none
  durationSeconds : Option ℚ := none
  context : Option String := none
  seed : Option ℚ := none
  style : Option String := none
  bypassCache : Option Bool := none
  product : Option AdProductPayload := none
  aspectRatio : Option String := none
  resolution : Option String := none
deriving Repr

/-- `String.prototype.trim()`, computed structurally over the character
list (drop leading and trailing whitespace). -/
def jsTrim (s : String) : String :=
  String.mk (((s.toList.dropWhile Char.isWhitespace).reverse.dropWhile
    Char.isWhitespace).reverse)

/-- `typeof v === "string" && v.trim().length > 0` for one required field. -/
def requiredStringOk : Option String → Bool
  | some s => (jsTrim s).length != 0
  | none => false

/-- `validateProduct` (route.ts lines 216-237): every required scalar field
must be a non-empty string after trimming, and `benefits` must be an array
of length exactly 3.  The elements of `benefits` are not inspected. -/
def validateProduct : Option AdProductPayload → Option AdProduct
  | none => none
  | some p =>
    if requiredStringOk p.id && requiredStringOk p.brandName &&
        requiredStringOk p.productName && requiredStringOk p.tagline &&
        requiredStringOk p.visualDescription && requiredStringOk p.actionScript &&
        requiredStringOk p.colorFrom && requiredStringOk p.colorTo then
      match p.benefits with
      | some bs =>
        if bs.length = 3 then
          some ⟨p.id.getD "",
                p.brandName.getD "", p.productName.getD "", p.tagline.getD "",
                p.visualDescription.getD "", p.actionScript.getD "",
                bs, p.colorFrom.getD "", p.colorTo.getD ""⟩
        else none
      | none => none
    else none

/-- The character class `[a-zA-Z0-9_-]` of `sanitizeVideoId`. -/
def isVideoIdChar (c : Char) : Bool :=
  c.isAlpha || c.isDigit || c = '_' || c = '-'

/-- `sanitizeVideoId` (route.ts lines 186-189): drop every character outside
`[a-zA-Z0-9_-]`, then trim; non-strings become `""`. -/
def sanitizeVideoId : Option String → String
  | none => ""
  | some s => jsTrim (String.mk (s.toList.filter isVideoIdChar))

/-! ## Configuration constants (route.ts lines 42-60) -/

def AD_INSERT_DURATION_SECONDS : ℚ := 8

def VEO_MAX_IMAGE_TO_VIDEO_SECONDS : ℚ := 8

def MAX_CONTEXT_CHARS : Nat := 1500

/-- Default value of `TIMESTAMP_FALLBACK_OFFSETS` (env default string
`"0,3,-3,6,-6,10,-10,15,-15"`, each entry floored to an integer). -/
def TIMESTAMP_FALLBACK_OFFSETS : List ℤ := [0, 3, -3, 6, -6, 10, -10, 15, -15]

/-- Environment-derived configuration of the route, with the defaults the
code uses when the corresponding environment variables are unset.
`models` models `getModelCandidates()` (default: primary model followed by
`veo-3.1-generate-preview`, deduplicated), `clientError` models a failing
`createClient()` (missing credentials). -/
structure Config where
  offsets : List ℤ := TIMESTAMP_FALLBACK_OFFSETS
  maxCacheEntries : Nat := 60
  models : List String := ["veo-3.1-fast-generate-preview", "veo-3.1-generate-preview"]
  defaultPersonGeneration : String := "ALLOW_ADULT"
  enableFaceSafetyRetry : Bool := true
  persistEnabled : Bool := true
  disableCache : Bool := false
deriving Repr

/-! ## Error classification (route.ts lines 68-97) -/

/-- `a.startsWith(b)` over character lists (structural). -/
def leadsWith : List Char → List Char → Bool
  | [], _ => true
  | _ :: _, [] => false
  | a :: as, b :: bs => a == b && leadsWith as bs

/-- Substring containment over character lists (structural). -/
def containsSeq (pat : List Char) : List Char → Bool
  | [] => leadsWith pat []
  | c :: rest => leadsWith pat (c :: rest) || containsSeq pat rest

/-- `s.includes(pat)`: substring containment. -/
def strContains (s pat : String) : Bool := containsSeq pat.toList s.toList

/-- `String.prototype.toLowerCase()`, over the character list (the messages
classified by the route are ASCII). -/
def strToLower (s : String) : String := String.mk (s.toList.map Char.toLower)

def isFaceSafetyBlock (message : String) : Bool :=
  let lower := strToLower message
  strContains lower "person/face generation" ||
    strContains lower "face generation" ||
    strContains lower "input image contains content that has been blocked"

def isUsageGuidelineBlock (message : String) : Bool :=
  let lower := strToLower message
  strContains lower "violates vertex ai\x27s usage guidelines" ||
    strContains lower "violates vertex ai usage guidelines" ||
    strContains lower "input image violates vertex ai\x27s usage guidelines"

def isBlockedInputImageError (message : String) : Bool :=
  isFaceSafetyBlock message || isUsageGuidelineBlock message

def isMissingSampleError (message : String) : Bool :=
  let lower := strToLower message
  strContains lower "did not return first split segment" ||
    strContains lower "did not return second split segment" ||
    strContains lower "returned no video sample"

/-! ## Timestamp candidates and safety profiles (route.ts lines 99-124) -/

/-- `Math.floor(q * 1000) / 1000`: millisecond normalization of a candidate
timestamp. -/
def norm1000 (q : ℚ) : ℚ := (⌊q * 1000⌋ : ℚ) / 1000

/-- Body of the `for (const offset of TIMESTAMP_FALLBACK_OFFSETS)` loop of
`buildTimestampCandidates` (route.ts lines 102-108): offset the base
timestamp, clamp at 0, normalize to millisecond precision, and append
unless already seen (the `Set`-based deduplication keeps first-occurrence
order). -/
def candidateStep (baseTimestamp : ℚ) (candidates : List ℚ) (offset : ℤ) : List ℚ :=
  let candidate := max 0 (baseTimestamp + (offset : ℚ))
  let normalized := norm1000 candidate
  if normalized ∈ candidates then candidates else candidates ++ [normalized]

/-- `buildTimestampCandidates` (route.ts lines 99-110); falls back to
`[max 0 base]` when the offset list produced nothing. -/
def buildTimestampCandidates (offsets : List ℤ) (baseTimestamp : ℚ) : List ℚ :=
  let candidates := offsets.foldl (candidateStep baseTimestamp) []
  if candidates.length = 0 then [max 0 baseTimestamp] else candidates

structure SafetyProfile where
  personGeneration : String
deriving DecidableEq, Repr

/-- `getSafetyProfiles` (route.ts lines 112-124). -/
def getSafetyProfiles (defaultPersonGeneration : String) (enableFaceSafetyRetry : Bool) :
    List SafetyProfile :=
  let primary : SafetyProfile := ⟨defaultPersonGeneration⟩
  if enableFaceSafetyRetry && !(defaultPersonGeneration == "ALLOW_ALL") then
    [primary, ⟨"ALLOW_ALL"⟩]
  else [primary]

/-! ## Cached clips and the two cache layers (route.ts lines 126-143, 690-756) -/

/-- `CachedClip` (route.ts lines 126-137).  `cachedAt` is the `Date.now()`
value at creation. -/
structure CachedClip where
  jobId : String
  status : String := "completed"
  modelUsed : String
  mimeType : String
  sourceUri : Option String
  videoUrl : String
  cachedAt : Nat
  requestedTimestampSeconds : Option ℚ := none
  appliedTimestampSeconds : Option ℚ := none
  personGenerationUsed : Option String := none
deriving DecidableEq, Repr

/-- A JS `Map` in insertion order: an association list whose keys are unique
and ordered earliest-insertion first. -/
abbrev CacheMap := List (String × CachedClip)

/-- `Map.prototype.get`: the entry for `k`, if present.  Reading never
mutates the map (JS `Map` has no recency reordering). -/
def mapGet (m : CacheMap) (k : String) : Option CachedClip :=
  match m.find? (fun p => p.1 = k) with
  | some p => some p.2
  | none => none

/-- `Map.prototype.set`: update in place when the key exists (keeping its
insertion position), otherwise append at the end. -/
def mapSet (m : CacheMap) (k : String) (v : CachedClip) : CacheMap :=
  if m.any (fun p => p.1 = k) then
    m.map (fun p => if p.1 = k then (k, v) else p)
  else m ++ [(k, v)]

/-- `Map.prototype.delete k`: remove the entry for `k`. -/
def mapDelete (m : CacheMap) (k : String) : CacheMap :=
  m.eraseP (fun p => p.1 = k)

/-- `writeCache` (route.ts lines 713-721): insert, then if the size exceeds
`MAX_CACHE_ENTRIES` delete the key returned first by `Map.keys()` — the
earliest-inserted key. -/
def writeCache (maxEntries : Nat) (m : CacheMap) (k : String) (v : CachedClip) : CacheMap :=
  let m1 := mapSet m k v
  if m1.length ≤ maxEntries then m1
  else
    match m1.head? with
    | some oldest => mapDelete m1 oldest.1
    | none => m1

/-- `readPersistentCache` (route.ts lines 728-745): a read of the on-disk
cache directory, `none` when persistence is disabled or the file is absent.
The durable store is modelled as a second map keyed by the same cache key
(the sha1-hashed filename is a bijective renaming of keys). -/
def readPersistentCache (persistEnabled : Bool) (disk : CacheMap) (k : String) :
    Option CachedClip :=
  if persistEnabled then mapGet disk k else none

/-- `writePersistentCache` (route.ts lines 747-756); a no-op when
persistence is disabled.  Filesystem write failures (logged and swallowed
by the route) are not modelled: the written state is the success outcome. -/
def writePersistentCache (persistEnabled : Bool) (disk : CacheMap) (k : String)
    (v : CachedClip) : CacheMap :=
  if persistEnabled then mapSet disk k v else disk

/-! ## Request field normalization and the cache key (route.ts lines 690-711, 776-803) -/

/-- Lines 776-778: `Math.max(0, body.timestampSeconds)` when the field is a
finite number, else `0`. -/
def requestTimestamp (b : VeoRequestBody) : ℚ :=
  match b.timestampSeconds with
  | some t => max 0 t
  | none => 0

/-- `clipContext` (route.ts lines 239-244): trim, truncate to
`MAX_CONTEXT_CHARS`. -/
def clipContext : Option String → String
  | none => ""
  | some s =>
    let clean := jsTrim s
    if clean.length ≤ MAX_CONTEXT_CHARS then clean
    else String.mk (clean.toList.take MAX_CONTEXT_CHARS)

/-- Lines 781-783: trimmed style override or the `"ad-possession"` default. -/
def requestStyle (b : VeoRequestBody) : String :=
  match b.style with
  | some s => if 0 < (jsTrim s).length then jsTrim s else "ad-possession"
  | none => "ad-possession"

/-- Lines 784-786: trimmed aspect-ratio override or `DEFAULT_ASPECT_RATIO`. -/
def requestAspectRatio (b : VeoRequestBody) : String :=
  match b.aspectRatio with
  | some s => if 0 < (jsTrim s).length then jsTrim s else "16:9"
  | none => "16:9"

/-- Lines 787-789: trimmed resolution override or `DEFAULT_RESOLUTION`. -/
def requestResolution (b : VeoRequestBody) : String :=
  match b.resolution with
  | some s => if 0 < (jsTrim s).length then jsTrim s else "720p"
  | none => "720p"

/-- Lines 790-792: `Math.floor(Math.abs(body.seed))` when the seed is a
finite number, else `null`. -/
def requestedSeed (b : VeoRequestBody) : Option ℤ :=
  match b.seed with
  | some q => some ⌊|q|⌋
  | none => none

/-- Line 793: `"auto"` or the decimal rendering of the seed. -/
def seedToken (b : VeoRequestBody) : String :=
  match requestedSeed b with
  | none => "auto"
  | some n => toString n

structure CacheKeyInput where
  videoId : String
  timestampSeconds : ℚ
  durationSeconds : ℚ
  productId : String
  style : String
  aspectRatio : String
  resolution : String
  seedToken : String

/-- `buildCacheKey` (route.ts lines 690-711): the `":"`-joined fingerprint.
The scene-context text is not an input. -/
def buildCacheKey (input : CacheKeyInput) : String :=
  let roundedTs := ⌊input.timestampSeconds * 1000⌋
  String.intercalate ":"
    [input.videoId, toString roundedTs, toString input.durationSeconds,
      input.productId, input.style, input.aspectRatio, input.resolution,
      input.seedToken]

/-- The cache key the POST handler computes for a request (lines 794-803).
Note line 779: the duration is the constant `AD_INSERT_DURATION_SECONDS`,
not the request's `durationSeconds` field. -/
def cacheKeyOfRequest (b : VeoRequestBody) (product : AdProduct) : String :=
  buildCacheKey
    { videoId := sanitizeVideoId b.videoId
      timestampSeconds := requestTimestamp b
      durationSeconds := AD_INSERT_DURATION_SECONDS
      productId := product.id
      style := requestStyle b
      aspectRatio := requestAspectRatio b
      resolution := requestResolution b
      seedToken := seedToken b }

/-! ## Frames, generation attempts, and the orchestration loops
(route.ts lines 575-680, 758-1089)

With the shipped constants `AD_INSERT_DURATION_SECONDS = 8` and
`VEO_MAX_IMAGE_TO_VIDEO_SECONDS = 8`, `requiresSplit` (line 824) is
`false` for every request — `durationSeconds > VEO_MAX...` is `8 > 8` —
so the handler always takes the two-frame single-segment path and
`holdExtensionSeconds = max 0 (8 - 8) = 0`, meaning `extendVideoWithHold`
is invoked with the identity branch only.  The split branch
(three frames, two concurrent generations, stitch) is therefore
unreachable and not modelled in the orchestrator. -/

/-- `ExtractedFrameImage` (route.ts lines 37-40). -/
structure ExtractedFrameImage where
  mimeType : String
  imageBytes : String
deriving DecidableEq, Repr

/-- The result of `parseStructuredApiError` on the error thrown by one
generation attempt (route.ts lines 197-214): the embedded JSON error code
and status when present (0 / "" otherwise), and the message used for
classification. -/
structure ApiError where
  code : Nat
  status : String
  message : String
deriving DecidableEq, Repr

/-- A successfully generated and resolved video: the outcome of
`generateVideos` + `pollUntilDone` + `videoToBase64` (route.ts lines
973-1000). -/
structure GeneratedClip where
  jobId : String
  mimeType : String
  base64 : String
  sourceUri : Option String
deriving DecidableEq, Repr

/-- Outcome of the body of one `try` block at lines 886-1031: either a
resolved clip, or the thrown error as classified by
`parseStructuredApiError`. -/
inductive AttemptResult where
  | ok (clip : GeneratedClip)
  | err (e : ApiError)
deriving DecidableEq, Repr

/-- Trace of the external interactions the handler performs, in order.
`frameCall t` is one `extractFrameFromYouTube(videoId, t)` launch;
`genCall` is one generation attempt with the timestamp candidate, model,
person-generation policy, the `durationSeconds` passed in the generation
config, and the frame bytes submitted as first/last boundary frames. -/
inductive ExternalCall where
  | frameCall (timestampSeconds : ℚ)
  | genCall (timestampSeconds : ℚ) (model : String) (personGeneration : String)
      (durationSeconds : ℚ) (firstFrameBytes : String) (lastFrameBytes : String)
deriving DecidableEq, Repr

/-- Mutable state threaded through the handler: the in-memory cache map,
the durable cache, and the trace of external calls made so far. -/
structure OrchState where
  mem : CacheMap
  disk : CacheMap
  calls : List ExternalCall
deriving DecidableEq, Repr

/-- The JSON responses the POST handler can produce.
`invalid` covers the 400 validation rejections and the 500 from a failing
`createClient`; `clipResponse` is a spread clip plus the `cacheHit` flag;
`terminalErr` the 403/429 aborts (with their fixed `error` text and the
provider `detail`); `allFailed` the final 500 carrying the last recorded
error. -/
inductive VeoResponse where
  | invalid (httpStatus : Nat) (error : String)
  | clipResponse (clip : CachedClip) (cacheHit : Bool)
  | terminalErr (httpStatus : Nat) (error : String) (detail : String)
  | allFailed (lastError : String)
deriving DecidableEq, Repr

/-- Everything fixed for the duration of one orchestration: configuration,
the generation oracle (outcome of one attempt, keyed by candidate
timestamp, model, and person-generation policy), the frame oracle (outcome
of `extractFrameFromYouTube` at a timestamp), the `Date.now()` value, the
cache key, the bypass flag, and the requested timestamp. -/
structure OrchContext where
  cfg : Config
  gen : ℚ → String → String → AttemptResult
  frame : ℚ → Except String ExtractedFrameImage
  now : Nat
  cacheKey : String
  bypassCache : Bool
  requestedTimestampSeconds : ℚ

/-- Line 826: duration for the single generation call,
`Math.min(durationSeconds, VEO_MAX_IMAGE_TO_VIDEO_SECONDS)`. -/
def generatedDurationSeconds : ℚ :=
  min AD_INSERT_DURATION_SECONDS VEO_MAX_IMAGE_TO_VIDEO_SECONDS

/-- The `Promise.all` of the two frame extractions for a candidate
(route.ts lines 858-861): all-or-nothing join. -/
def frameAcquire (ctx : OrchContext) (ts : ℚ) :
    Except String (ExtractedFrameImage × ExtractedFrameImage) := do
  let firstFrame ← ctx.frame ts
  let lastFrame ← ctx.frame (ts + generatedDurationSeconds)
  pure (firstFrame, lastFrame)

/-- The `generatedResponse` record built on success (route.ts lines
1007-1020, single-pass branch; `extended` is `null` because
`holdExtensionSeconds = 0`). -/
def successResponse (ctx : OrchContext) (ts : ℚ) (model personGeneration : String)
    (clip : GeneratedClip) : CachedClip :=
  { jobId := clip.jobId
    status := "completed"
    modelUsed := model
    mimeType := clip.mimeType
    sourceUri := clip.sourceUri
    videoUrl := "data:" ++ clip.mimeType ++ ";base64," ++ clip.base64
    cachedAt := ctx.now
    requestedTimestampSeconds := some ctx.requestedTimestampSeconds
    appliedTimestampSeconds := some ts
    personGenerationUsed := some personGeneration }

/-- How the inner `for (profileIndex ...)` loop exits (route.ts lines
884-1073): `report` = a `return` from the handler (success, or a 403/429
terminal error); `modelNext` = loop broke or ended without
`moveToNextCandidate`, so control falls to the next model; `candidateNext` =
`moveToNextCandidate`/`blockedFrameForCandidate` were set, abandoning the
candidate. -/
inductive ProfileStep where
  | report (resp : VeoResponse) (st : OrchState)
  | modelNext (lastError : String) (st : OrchState)
  | candidateNext (lastError : String) (st : OrchState)
deriving DecidableEq, Repr

/-- The safety-profile loop for one (candidate, model) pair (route.ts lines
884-1073).  The list argument is the suffix of profiles not yet tried;
`hasRetryProfile` (line 1057) is the non-emptiness of its tail. -/
def profileLoop (ctx : OrchContext) (ts : ℚ) (model : String)
    (firstFrame lastFrame : ExtractedFrameImage) :
    List SafetyProfile → String → OrchState → ProfileStep
  | [], lastError, st => .modelNext lastError st
  | profile :: rest, _lastError, st =>
    let st1 : OrchState :=
      { st with calls := st.calls ++
          [.genCall ts model profile.personGeneration generatedDurationSeconds
            firstFrame.imageBytes lastFrame.imageBytes] }
    match ctx.gen ts model profile.personGeneration with
    | .ok clip =>
      let response := successResponse ctx ts model profile.personGeneration clip
      let st2 :=
        if ctx.bypassCache then st1
        else
          { st1 with
            mem := writeCache ctx.cfg.maxCacheEntries st1.mem ctx.cacheKey response
            disk := writePersistentCache ctx.cfg.persistEnabled st1.disk ctx.cacheKey response }
      .report (.clipResponse response false) st2
    | .err e =>
      if e.code = 403 ∨ e.status = "PERMISSION_DENIED" then
        .report (.terminalErr 403
          "Vertex permission denied for current credentials/project." e.message) st1
      else if e.code = 429 ∨ e.status = "RESOURCE_EXHAUSTED" then
        .report (.terminalErr 429
          "Veo quota exceeded for current billing/quota project." e.message) st1
      else
        let retryableFrameIssue :=
          isBlockedInputImageError e.message || isMissingSampleError e.message
        if retryableFrameIssue && !rest.isEmpty then
          profileLoop ctx ts model firstFrame lastFrame rest e.message st1
        else if retryableFrameIssue then
          .candidateNext e.message st1
        else
          .modelNext e.message st1

/-- How the `for (const model of models)` loop exits (route.ts lines
882-1077): `returned` = the handler returned; `candidateDone` = the loop
ran out of models (`blockedFrameForCandidate = false`) or was broken by
`moveToNextCandidate` (`blockedFrameForCandidate = true`). -/
inductive ModelStep where
  | returned (resp : VeoResponse) (st : OrchState)
  | candidateDone (lastError : String) (st : OrchState) (blockedFrameForCandidate : Bool)
deriving DecidableEq, Repr

/-- The model loop for one timestamp candidate (route.ts lines 882-1077).
Each model restarts the safety-profile loop from the full profile list. -/
def modelLoop (ctx : OrchContext) (ts : ℚ)
    (firstFrame lastFrame : ExtractedFrameImage) (profiles : List SafetyProfile) :
    List String → String → OrchState → ModelStep
  | [], lastError, st => .candidateDone lastError st false
  | model :: rest, lastError, st =>
    match profileLoop ctx ts model firstFrame lastFrame profiles lastError st with
    | .report resp st1 => .returned resp st1
    | .modelNext lastError1 st1 =>
      modelLoop ctx ts firstFrame lastFrame profiles rest lastError1 st1
    | .candidateNext lastError1 st1 => .candidateDone lastError1 st1 true

/-- The `for (const candidateTimestampSeconds of timestampCandidates)` loop
(route.ts lines 846-1083) together with the final 500 return (lines
1085-1088).  A frame-acquisition failure records the error and advances to
the next candidate; `blockedFrameForCandidate` advances to the next
candidate; otherwise the loop `break`s and the handler returns the
last-error 500. -/
def candidateLoop (ctx : OrchContext) (profiles : List SafetyProfile) :
    List ℚ → String → OrchState → VeoResponse × OrchState
  | [], lastError, st => (.allFailed lastError, st)
  | ts :: rest, lastError, st =>
    let st1 : OrchState :=
      { st with calls := st.calls ++
          [.frameCall ts, .frameCall (ts + generatedDurationSeconds)] }
    match frameAcquire ctx ts with
    | .error msg =>
      candidateLoop ctx profiles rest
        ("Failed to extract framing images near " ++ toString ts ++ "s. " ++ msg) st1
    | .ok (firstFrame, lastFrame) =>
      match modelLoop ctx ts firstFrame lastFrame profiles ctx.cfg.models lastError st1 with
      | .returned resp st2 => (resp, st2)
      | .candidateDone lastError1 st2 true => candidateLoop ctx profiles rest lastError1 st2
      | .candidateDone lastError1 st2 false => (.allFailed lastError1, st2)

/-- The POST handler (route.ts lines 758-1089), for a request whose JSON
body parsed.  `clientError` is `some msg` when `createClient()` throws
(missing credentials); `now` is `Date.now()`.  Returns the JSON response
and the final state (caches and the trace of external calls — empty up to
the point where validation or a cache hit returns early). -/
def POSTmodel (cfg : Config) (clientError : Option String)
    (frame : ℚ → Except String ExtractedFrameImage)
    (gen : ℚ → String → String → AttemptResult) (now : Nat)
    (body : VeoRequestBody) (mem disk : CacheMap) : VeoResponse × OrchState :=
  match validateProduct body.product with
  | none => (.invalid 400 "Invalid product payload for ad generation.", ⟨mem, disk, []⟩)
  | some product =>
    let videoId := sanitizeVideoId body.videoId
    if videoId = "" then
      (.invalid 400 "Missing valid videoId for Veo ad generation.", ⟨mem, disk, []⟩)
    else
      let timestampSeconds := requestTimestamp body
      let cacheKey := cacheKeyOfRequest body product
      let bypassCache := (body.bypassCache == some true) || cfg.disableCache
      match if bypassCache then none else mapGet mem cacheKey with
      | some hit => (.clipResponse hit true, ⟨mem, disk, []⟩)
      | none =>
        match if bypassCache then none
              else readPersistentCache cfg.persistEnabled disk cacheKey with
        | some diskHit =>
          (.clipResponse diskHit true,
            ⟨writeCache cfg.maxCacheEntries mem cacheKey diskHit, disk, []⟩)
        | none =>
          match clientError with
          | some msg => (.invalid 500 msg, ⟨mem, disk, []⟩)
          | none =>
            let ctx : OrchContext :=
              { cfg := cfg, gen := gen, frame := frame, now := now
                cacheKey := cacheKey, bypassCache := bypassCache
                requestedTimestampSeconds := timestampSeconds }
            let profiles :=
              getSafetyProfiles cfg.defaultPersonGeneration cfg.enableFaceSafetyRetry
            let candidates := buildTimestampCandidates cfg.offsets timestampSeconds
            candidateLoop ctx profiles candidates "Unknown Veo generation failure."
              ⟨mem, disk, []⟩

/-! ## Media post-processor: extend-pad (route.ts lines 507-573) -/

/-- Result of a media-processing step: a mime type and base64 bytes. -/
structure ProcessedVideo where
  mimeType : String
  base64 : String
deriving DecidableEq, Repr

/-- `extendVideoWithHold` (route.ts lines 507-573).  The `holdSeconds > 0`
path runs ffmpeg (audio-padded variant, falling back to video-only) on a
temp copy; both invocations are abstracted into the oracle `ffmpegPad`,
whose input is the hold duration and the input bytes.  The returned list
records the media-processing invocations performed (hold duration, input
bytes); the `holdSeconds ≤ 0` branch returns the input bytes unchanged and
performs none. -/
def extendVideoWithHold (ffmpegPad : ℚ → String → Except String String)
    (videoBase64 : String) (holdSeconds : ℚ) :
    Except String ProcessedVideo × List (ℚ × String) :=
  if holdSeconds ≤ 0 then
    (.ok ⟨"video/mp4", videoBase64⟩, [])
  else
    (match ffmpegPad holdSeconds videoBase64 with
      | .ok out => .ok ⟨"video/mp4", out⟩
      | .error e => .error e,
     [(holdSeconds, videoBase64)])

/-! ## Frame provider fallback chain (route.ts lines 575-680) -/

/-- Outcome of one `fetch` of a thumbnail URL (route.ts lines 651-664):
the fetch threw (network error), returned a non-ok status, or returned ok
with a `content-type` header (absent = `none`) and a body, modelled by its
base64 rendering (empty body ↔ empty string). -/
inductive FetchOutcome where
  | threw
  | notOk
  | ok (contentType : Option String) (bodyBase64 : String)
deriving DecidableEq, Repr

/-- JS `a || b` on the header value: `null` and `""` are both falsy. -/
def jsOrString (a : Option String) (dflt : String) : String :=
  match a with
  | some s => if s.length = 0 then dflt else s
  | none => dflt

/-- The ordered thumbnail quality variants (route.ts lines 645-649). -/
def thumbnailCandidates (videoId : String) : List String :=
  ["https://i.ytimg.com/vi/" ++ videoId ++ "/maxresdefault.jpg",
   "https://i.ytimg.com/vi/" ++ videoId ++ "/sddefault.jpg",
   "https://i.ytimg.com/vi/" ++ videoId ++ "/hqdefault.jpg"]

/-- The `for (const url of candidates)` loop of `extractFrameFromThumbnail`
(route.ts lines 651-667): skip a variant when the fetch throws, is non-ok,
or has an empty body; return the first remaining one. -/
def thumbnailLoop (fetch : String → FetchOutcome) :
    List String → Except String ExtractedFrameImage
  | [] => .error "Failed to fetch fallback thumbnail frame."
  | url :: rest =>
    match fetch url with
    | .threw => thumbnailLoop fetch rest
    | .notOk => thumbnailLoop fetch rest
    | .ok contentType bodyBase64 =>
      if bodyBase64.length = 0 then thumbnailLoop fetch rest
      else .ok ⟨jsOrString contentType "image/jpeg", bodyBase64⟩

/-- `extractFrameFromThumbnail` (route.ts lines 644-668). -/
def extractFrameFromThumbnail (fetch : String → FetchOutcome) (videoId : String) :
    Except String ExtractedFrameImage :=
  thumbnailLoop fetch (thumbnailCandidates videoId)

/-- `extractFrameFromYouTube` (route.ts lines 670-680): the primary
subprocess path (`extractFrameFromYouTubeViaPython`, abstracted as the
oracle value `primary` — its success frame or its thrown error), falling
back to the thumbnail chain on any failure. -/
def extractFrameFromYouTube (primary : Except String ExtractedFrameImage)
    (fetch : String → FetchOutcome) (videoId : String) :
    Except String ExtractedFrameImage :=
  match primary with
  | .ok frame => .ok frame
  | .error _ => extractFrameFromThumbnail fetch videoId

/-- A thumbnail variant "fails" when the fetch throws, is non-ok, or
returns an empty body (the three `continue` cases of the loop). -/
def fetchFails : FetchOutcome → Bool
  | .threw => true
  | .notOk => true
  | .ok _ bodyBase64 => bodyBase64.length = 0

/-! ## In-memory cache as a sequence of operations (for the eviction
invariant).  `Map.prototype.get` performs no mutation, so an access is the
identity on the map; only `writeCache` mutates. -/

inductive CacheOp where
  | put (k : String) (v : CachedClip)
  | access (k : String)
deriving Repr

/-- Effect of one cache operation on the in-memory map. -/
def applyCacheOp (maxEntries : Nat) (m : CacheMap) : CacheOp → CacheMap
  | .put k v => writeCache maxEntries m k v
  | .access _ => m

/-- The map after a sequence of puts and accesses, starting empty (the
module-level `adClipCache = new Map()`). -/
def runCacheOps (maxEntries : Nat) (ops : List CacheOp) : CacheMap :=
  ops.foldl (applyCacheOp maxEntries) []

/-! # Theorems

Shared sample data (a valid product payload and request body used by the
concrete scenarios), then helper lemmas, then one theorem per claim. -/

/-- A well-formed product payload (all required fields non-empty, three
benefit strings). -/
def sampleProduct : AdProductPayload :=
  { id := some "prod-1", brandName := some "Brand", productName := some "Product",
    tagline := some "Tag", visualDescription := some "Visual",
    actionScript := some "Action", benefits := some ["b1", "b2", "b3"],
    colorFrom := some "#000", colorTo := some "#fff" }

/-- `sampleProduct` after validation. -/
def sampleAdProduct : AdProduct :=
  { id := "prod-1", brandName := "Brand", productName := "Product",
    tagline := "Tag", visualDescription := "Visual", actionScript := "Action",
    benefits := ["b1", "b2", "b3"], colorFrom := "#000", colorTo := "#fff" }

/-- A minimal valid request body at whole-second timestamp `m`. -/
def sampleBody (m : ℕ) : VeoRequestBody :=
  { videoId := some "abc123", timestampSeconds := some (m : ℚ),
    product := some sampleProduct }

/-- A provider error classified as `BlockedInputImage` and not terminal. -/
def blockedInputError : ApiError :=
  ⟨400, "INVALID_ARGUMENT",
    "The input image contains content that has been blocked for safety reasons."⟩

/-- A provider error in the `any other error` class: not 403/429, not a
blocked-input message, not a missing-sample message. -/
def otherInternalError : ApiError := ⟨500, "INTERNAL", "Internal provider failure."⟩

/-- A concrete extracted frame used by the concrete scenarios. -/
def samplePic : ExtractedFrameImage := ⟨"image/jpeg", "FRAMEBYTES"⟩

/-- A concrete generated clip used by the concrete scenarios. -/
def sampleClip : GeneratedClip := ⟨"op-1", "video/mp4", "VIDBYTES", none⟩

/-- A frame oracle on which every extraction succeeds with `samplePic`. -/
def frameAlwaysOk : ℚ → Except String ExtractedFrameImage := fun _ => .ok samplePic

/-- A generation oracle on which every attempt succeeds with `sampleClip`. -/
def genAlwaysOk : ℚ → String → String → AttemptResult := fun _ _ _ => .ok sampleClip

/-! ## Helper lemmas -/

theorem norm1000_intCast (n : ℤ) : norm1000 (n : ℚ) = n := by
  unfold norm1000
  have h : ((n : ℚ) * 1000) = ((n * 1000 : ℤ) : ℚ) := by push_cast; ring
  rw [h, Int.floor_intCast]
  push_cast
  field_simp

theorem norm1000_natCast (m : ℕ) : norm1000 (m : ℚ) = m := by
  have := norm1000_intCast (m : ℤ)
  push_cast at this
  exact this

theorem generatedDurationSeconds_eq : generatedDurationSeconds = 8 := by
  norm_num [generatedDurationSeconds, AD_INSERT_DURATION_SECONDS,
    VEO_MAX_IMAGE_TO_VIDEO_SECONDS]

theorem validateProduct_sample : validateProduct (some sampleProduct) = some sampleAdProduct := by
  decide

/-- `Map.set` followed by `Map.get` of the same key yields the value. -/
theorem mapGet_mapSet_self (m : CacheMap) (k : String) (v : CachedClip) :
    mapGet (mapSet m k v) k = some v := by
  induction m with
  | nil => simp [mapSet, mapGet]
  | cons hd tl ih =>
    by_cases hk : hd.1 = k
    · simp [mapSet, mapGet, hk]
    · have htl : mapSet (hd :: tl) k v = hd :: mapSet tl k v := by
        simp only [mapSet, List.any_cons, hk, decide_eq_true_eq]
        by_cases ha : tl.any (fun p => p.1 = k)
        · simp [ha, hk]
        · simp [ha, hk]
      rw [htl]
      simpa [mapGet, List.find?_cons, hk] using ih

/-- Keys absent from the map: `get` after appending the fresh entry finds it. -/
theorem mapGet_append_fresh (m : CacheMap) (k : String) (v : CachedClip)
    (hfresh : ∀ p ∈ m, p.1 ≠ k) : mapGet (m ++ [(k, v)]) k = some v := by
  induction m with
  | nil => simp [mapGet]
  | cons hd tl ih =>
    have hhd : hd.1 ≠ k := hfresh hd (List.mem_cons_self hd tl)
    have : mapGet ((hd :: tl) ++ [(k, v)]) k = mapGet (tl ++ [(k, v)]) k := by
      simp [mapGet, List.find?_cons, hhd]
    rw [this]
    exact ih (fun p hp => hfresh p (List.mem_cons_of_mem hd hp))

/-- `mapSet` preserves length when the key exists and grows by one otherwise. -/
theorem mapSet_length (m : CacheMap) (k : String) (v : CachedClip) :
    (mapSet m k v).length =
      if m.any (fun p => p.1 = k) then m.length else m.length + 1 := by
  unfold mapSet
  split <;> simp

/-- A `writeCache` on a within-capacity map stays within capacity. -/
theorem writeCache_length_le (maxEntries : Nat) (m : CacheMap) (k : String)
    (v : CachedClip) (hlen : m.length ≤ maxEntries) :
    (writeCache maxEntries m k v).length ≤ maxEntries := by
  unfold writeCache
  by_cases hany : m.any (fun p => p.1 = k)
  · have h1 : (mapSet m k v).length = m.length := by rw [mapSet_length]; simp [hany]
    simp only [h1]
    rw [if_pos hlen]
    exact h1 ▸ hlen
  · have h1 : (mapSet m k v).length = m.length + 1 := by rw [mapSet_length]; simp [hany]
    by_cases hle : (mapSet m k v).length ≤ maxEntries
    · rw [if_pos hle]; exact hle
    · rw [if_neg hle]
      have hm : m.length = maxEntries := by omega
      have hne : mapSet m k v ≠ [] := by
        intro hnil
        rw [hnil] at h1
        simp at h1
      obtain ⟨hd, tl, hcons⟩ := List.exists_cons_of_ne_nil hne
      rw [hcons]
      simp only [List.head?_cons]
      have : mapDelete (hd :: tl) hd.1 = tl := by
        unfold mapDelete
        rw [List.eraseP_cons_of_pos]
        simp
      rw [this]
      have : (hd :: tl).length = m.length + 1 := by rw [← hcons]; exact h1
      simp at this
      omega

/-- When the inserted key is fresh and the map is exactly full, `writeCache`
keeps every entry but the earliest-inserted one, which it evicts, and
appends the new entry last. -/
theorem writeCache_evicts_oldest (maxEntries : Nat) (m : CacheMap) (k : String)
    (v : CachedClip) (hfresh : ∀ p ∈ m, p.1 ≠ k) (hfull : m.length = maxEntries)
    (hpos : 0 < maxEntries) :
    writeCache maxEntries m k v = m.tail ++ [(k, v)] := by
  have hany : m.any (fun p => p.1 = k) = false := by
    simp only [List.any_eq_false, decide_eq_true_eq]
    exact hfresh
  obtain ⟨hd, tl, hcons⟩ := List.exists_cons_of_ne_nil
    (show m ≠ [] by intro h; rw [h] at hfull; simp at hfull; omega)
  unfold writeCache
  have hset : mapSet m k v = m ++ [(k, v)] := by unfold mapSet; rw [hany]; simp
  rw [hset]
  have hlen : (m ++ [(k, v)]).length = maxEntries + 1 := by simp [hfull]
  rw [if_neg (by omega)]
  rw [hcons]
  simp only [List.cons_append, List.head?_cons]
  have : mapDelete (hd :: (tl ++ [(k, v)])) hd.1 = tl ++ [(k, v)] := by
    unfold mapDelete
    rw [List.eraseP_cons_of_pos]
    simp
  rw [this]
  simp

/-- Capacity invariant over an arbitrary operation sequence. -/
theorem foldl_cacheOps_length (maxEntries : Nat) :
    ∀ (ops : List CacheOp) (m : CacheMap), m.length ≤ maxEntries →
      (ops.foldl (applyCacheOp maxEntries) m).length ≤ maxEntries := by
  intro ops
  induction ops with
  | nil => intro m hm; simpa using hm
  | cons op rest ih =>
    intro m hm
    simp only [List.foldl_cons]
    apply ih
    cases op with
    | put k v => exact writeCache_length_le maxEntries m k v hm
    | access k => exact hm

/-- `Map.get` after `writeCache` on a within-capacity map finds the value
just written (the eviction, when it fires, removes an older entry). -/
theorem mapGet_writeCache_self (maxEntries : Nat) (m : CacheMap) (k : String)
    (v : CachedClip) (hmax : 1 ≤ maxEntries) (hlen : m.length ≤ maxEntries) :
    mapGet (writeCache maxEntries m k v) k = some v := by
  unfold writeCache
  by_cases hle : (mapSet m k v).length ≤ maxEntries
  · rw [if_pos hle]; exact mapGet_mapSet_self m k v
  · rw [if_neg hle]
    by_cases hany : m.any (fun p => p.1 = k)
    · exfalso
      have := mapSet_length m k v
      rw [if_pos hany] at this
      omega
    · have hfresh : ∀ p ∈ m, p.1 ≠ k := by
        simpa only [List.any_eq_false, decide_eq_true_eq] using
          (by exact eq_false_of_ne_true (by simpa using hany) : m.any (fun p => p.1 = k) = false)
      have hset : mapSet m k v = m ++ [(k, v)] := by
        unfold mapSet
        rw [if_neg (by simpa using hany)]
      have hm1 : (mapSet m k v).length = m.length + 1 := by
        rw [mapSet_length, if_neg (by simpa using hany)]
      have hmlen : m.length = maxEntries := by omega
      obtain ⟨hd, tl, hcons⟩ := List.exists_cons_of_ne_nil
        (show m ≠ [] by intro h; rw [h] at hmlen; simp at hmlen; omega)
      rw [hset, hcons]
      simp only [List.cons_append, List.head?_cons]
      have herase : mapDelete (hd :: (tl ++ [(k, v)])) hd.1 = tl ++ [(k, v)] := by
        unfold mapDelete
        rw [List.eraseP_cons_of_pos]
        simp
      rw [herase]
      exact mapGet_append_fresh tl k v
        (fun p hp => hfresh p (hcons ▸ List.mem_cons_of_mem hd hp))

/-! ## Timestamp-candidate lemmas -/

theorem candidateStep_append (b : ℚ) (acc : List ℚ) (o : ℤ) :
    ∃ u, candidateStep b acc o = acc ++ u := by
  unfold candidateStep
  by_cases h : norm1000 (max 0 (b + (o : ℚ))) ∈ acc
  · exact ⟨[], by simp [h]⟩
  · exact ⟨[norm1000 (max 0 (b + (o : ℚ)))], by simp [h]⟩

/-- The dedup fold only ever appends: the accumulator is a prefix of the
result. -/
theorem foldl_candidateStep_append (b : ℚ) :
    ∀ (l : List ℤ) (acc : List ℚ), ∃ t, l.foldl (candidateStep b) acc = acc ++ t := by
  intro l
  induction l with
  | nil => exact fun acc => ⟨[], by simp⟩
  | cons o rest ih =>
    intro acc
    obtain ⟨u, hu⟩ := candidateStep_append b acc o
    obtain ⟨t, ht⟩ := ih (acc ++ u)
    exact ⟨u ++ t, by simp [List.foldl_cons, hu, ht]⟩

theorem buildTimestampCandidates_eq (offsets : List ℤ) (b : ℚ) (L : List ℚ)
    (h : offsets.foldl (candidateStep b) [] = L) (hne : L ≠ []) :
    buildTimestampCandidates offsets b = L := by
  unfold buildTimestampCandidates
  simp only [h]
  rw [if_neg]
  simpa using hne

/-- With the default offsets and a whole-second base timestamp, the first
candidate is the requested timestamp itself and the second is the
requested timestamp plus 3. -/
theorem buildTimestampCandidates_natCast (m : ℕ) :
    ∃ rest, buildTimestampCandidates TIMESTAMP_FALLBACK_OFFSETS (m : ℚ) =
      (m : ℚ) :: ((m : ℚ) + 3) :: rest := by
  have hmax0 : max 0 ((m : ℚ) + ((0 : ℤ) : ℚ)) = (m : ℚ) := by push_cast; simp
  have hmax3 : max 0 ((m : ℚ) + ((3 : ℤ) : ℚ)) = (m : ℚ) + 3 := by
    push_cast
    rw [max_eq_right]
    positivity
  have hn3 : norm1000 ((m : ℚ) + 3) = (m : ℚ) + 3 := by
    have h := norm1000_natCast (m + 3)
    push_cast at h
    exact h
  have h0 : candidateStep (m : ℚ) [] 0 = [(m : ℚ)] := by
    simp only [candidateStep, hmax0, norm1000_natCast]
    simp
  have hne : ((m : ℚ) + 3) ∉ [(m : ℚ)] := by
    simp only [List.mem_singleton]
    intro h
    have h3 : (3 : ℚ) = 0 := by linarith
    norm_num at h3
  have h3 : candidateStep (m : ℚ) [(m : ℚ)] 3 = [(m : ℚ), (m : ℚ) + 3] := by
    simp only [candidateStep, hmax3, hn3]
    simp [hne]
  obtain ⟨t, ht⟩ := foldl_candidateStep_append (m : ℚ) [-3, 6, -6, 10, -10, 15, -15]
    [(m : ℚ), (m : ℚ) + 3]
  have hfold : TIMESTAMP_FALLBACK_OFFSETS.foldl (candidateStep (m : ℚ)) [] =
      (m : ℚ) :: ((m : ℚ) + 3) :: t := by
    rw [show TIMESTAMP_FALLBACK_OFFSETS = 0 :: 3 :: [-3, 6, -6, 10, -10, 15, -15] from rfl]
    rw [List.foldl_cons, h0, List.foldl_cons, h3, ht]
    simp
  exact ⟨t, buildTimestampCandidates_eq _ _ _ hfold (by simp)⟩

/-! ## Stepping lemmas for the orchestration loops

One lemma per branch of the retry state machine; the claim theorems and the
concrete counterexample runs are all chained from these. -/

/-- Successful attempt: return immediately, writing both cache layers when
the cache is not bypassed. -/
theorem profileLoop_ok (ctx : OrchContext) (ts : ℚ) (model : String)
    (f l : ExtractedFrameImage) (p : SafetyProfile) (rest : List SafetyProfile)
    (le : String) (st : OrchState) (clip : GeneratedClip)
    (hg : ctx.gen ts model p.personGeneration = .ok clip)
    (hb : ctx.bypassCache = false) :
    profileLoop ctx ts model f l (p :: rest) le st =
      .report (.clipResponse (successResponse ctx ts model p.personGeneration clip) false)
        { mem := writeCache ctx.cfg.maxCacheEntries st.mem ctx.cacheKey
            (successResponse ctx ts model p.personGeneration clip)
          disk := writePersistentCache ctx.cfg.persistEnabled st.disk ctx.cacheKey
            (successResponse ctx ts model p.personGeneration clip)
          calls := st.calls ++ [.genCall ts model p.personGeneration
            generatedDurationSeconds f.imageBytes l.imageBytes] } := by
  simp only [profileLoop, hg, hb]
  simp

/-- Successful attempt with the cache bypassed: return immediately, no cache
write. -/
theorem profileLoop_ok_bypass (ctx : OrchContext) (ts : ℚ) (model : String)
    (f l : ExtractedFrameImage) (p : SafetyProfile) (rest : List SafetyProfile)
    (le : String) (st : OrchState) (clip : GeneratedClip)
    (hg : ctx.gen ts model p.personGeneration = .ok clip)
    (hb : ctx.bypassCache = true) :
    profileLoop ctx ts model f l (p :: rest) le st =
      .report (.clipResponse (successResponse ctx ts model p.personGeneration clip) false)
        { st with calls := st.calls ++ [.genCall ts model p.personGeneration
            generatedDurationSeconds f.imageBytes l.imageBytes] } := by
  simp only [profileLoop, hg, hb]
  simp

/-- A `PERMISSION_DENIED`-classified failure aborts the whole orchestration
with a 403, whatever profiles, models, or candidates remain. -/
theorem profileLoop_perm (ctx : OrchContext) (ts : ℚ) (model : String)
    (f l : ExtractedFrameImage) (p : SafetyProfile) (rest : List SafetyProfile)
    (le : String) (st : OrchState) (e : ApiError)
    (hg : ctx.gen ts model p.personGeneration = .err e)
    (h403 : e.code = 403 ∨ e.status = "PERMISSION_DENIED") :
    profileLoop ctx ts model f l (p :: rest) le st =
      .report (.terminalErr 403
        "Vertex permission denied for current credentials/project." e.message)
        { st with calls := st.calls ++ [.genCall ts model p.personGeneration
            generatedDurationSeconds f.imageBytes l.imageBytes] } := by
  simp only [profileLoop, hg, if_pos h403]

/-- A `RESOURCE_EXHAUSTED`-classified failure aborts the whole orchestration
with a 429. -/
theorem profileLoop_quota (ctx : OrchContext) (ts : ℚ) (model : String)
    (f l : ExtractedFrameImage) (p : SafetyProfile) (rest : List SafetyProfile)
    (le : String) (st : OrchState) (e : ApiError)
    (hg : ctx.gen ts model p.personGeneration = .err e)
    (h403 : ¬(e.code = 403 ∨ e.status = "PERMISSION_DENIED"))
    (h429 : e.code = 429 ∨ e.status = "RESOURCE_EXHAUSTED") :
    profileLoop ctx ts model f l (p :: rest) le st =
      .report (.terminalErr 429
        "Veo quota exceeded for current billing/quota project." e.message)
        { st with calls := st.calls ++ [.genCall ts model p.personGeneration
            generatedDurationSeconds f.imageBytes l.imageBytes] } := by
  simp only [profileLoop, hg, if_neg h403, if_pos h429]

/-- A retryable (blocked-input or missing-sample) failure with another
profile remaining: advance only the profile index — same candidate, same
model, same frames. -/
theorem profileLoop_retry (ctx : OrchContext) (ts : ℚ) (model : String)
    (f l : ExtractedFrameImage) (p q : SafetyProfile) (rest : List SafetyProfile)
    (le : String) (st : OrchState) (e : ApiError)
    (hg : ctx.gen ts model p.personGeneration = .err e)
    (h403 : ¬(e.code = 403 ∨ e.status = "PERMISSION_DENIED"))
    (h429 : ¬(e.code = 429 ∨ e.status = "RESOURCE_EXHAUSTED"))
    (hretry : isBlockedInputImageError e.message = true ∨
      isMissingSampleError e.message = true) :
    profileLoop ctx ts model f l (p :: q :: rest) le st =
      profileLoop ctx ts model f l (q :: rest) e.message
        { st with calls := st.calls ++ [.genCall ts model p.personGeneration
            generatedDurationSeconds f.imageBytes l.imageBytes] } := by
  simp only [profileLoop, hg, if_neg h403, if_neg h429]
  rcases hretry with h | h <;> simp [h]

/-- A retryable failure with no profile remaining: abandon the timestamp
candidate entirely. -/
theorem profileLoop_abandon (ctx : OrchContext) (ts : ℚ) (model : String)
    (f l : ExtractedFrameImage) (p : SafetyProfile)
    (le : String) (st : OrchState) (e : ApiError)
    (hg : ctx.gen ts model p.personGeneration = .err e)
    (h403 : ¬(e.code = 403 ∨ e.status = "PERMISSION_DENIED"))
    (h429 : ¬(e.code = 429 ∨ e.status = "RESOURCE_EXHAUSTED"))
    (hretry : isBlockedInputImageError e.message = true ∨
      isMissingSampleError e.message = true) :
    profileLoop ctx ts model f l [p] le st =
      .candidateNext e.message
        { st with calls := st.calls ++ [.genCall ts model p.personGeneration
            generatedDurationSeconds f.imageBytes l.imageBytes] } := by
  simp only [profileLoop, hg, if_neg h403, if_neg h429]
  rcases hretry with h | h <;> simp [h]

/-- Any other failure: break out of the profile loop to the next model. -/
theorem profileLoop_other (ctx : OrchContext) (ts : ℚ) (model : String)
    (f l : ExtractedFrameImage) (p : SafetyProfile) (rest : List SafetyProfile)
    (le : String) (st : OrchState) (e : ApiError)
    (hg : ctx.gen ts model p.personGeneration = .err e)
    (h403 : ¬(e.code = 403 ∨ e.status = "PERMISSION_DENIED"))
    (h429 : ¬(e.code = 429 ∨ e.status = "RESOURCE_EXHAUSTED"))
    (hcls : isBlockedInputImageError e.message = false)
    (hmis : isMissingSampleError e.message = false) :
    profileLoop ctx ts model f l (p :: rest) le st =
      .modelNext e.message
        { st with calls := st.calls ++ [.genCall ts model p.personGeneration
            generatedDurationSeconds f.imageBytes l.imageBytes] } := by
  simp only [profileLoop, hg, if_neg h403, if_neg h429, hcls, hmis]
  simp

/-- The model loop forwards a returned response unchanged. -/
theorem modelLoop_report (ctx : OrchContext) (ts : ℚ)
    (f l : ExtractedFrameImage) (profiles : List SafetyProfile)
    (model : String) (rest : List String) (le : String) (st : OrchState)
    (resp : VeoResponse) (st1 : OrchState)
    (h : profileLoop ctx ts model f l profiles le st = .report resp st1) :
    modelLoop ctx ts f l profiles (model :: rest) le st = .returned resp st1 := by
  simp only [modelLoop, h]

/-- The model loop advances to the next model — restarting from the first
safety profile — when the profile loop broke with a non-retryable error. -/
theorem modelLoop_next (ctx : OrchContext) (ts : ℚ)
    (f l : ExtractedFrameImage) (profiles : List SafetyProfile)
    (model : String) (rest : List String) (le : String) (st : OrchState)
    (le1 : String) (st1 : OrchState)
    (h : profileLoop ctx ts model f l profiles le st = .modelNext le1 st1) :
    modelLoop ctx ts f l profiles (model :: rest) le st =
      modelLoop ctx ts f l profiles rest le1 st1 := by
  simp only [modelLoop, h]

/-- The model loop is broken immediately — skipping every remaining model —
when the profile loop abandoned the candidate. -/
theorem modelLoop_abandon (ctx : OrchContext) (ts : ℚ)
    (f l : ExtractedFrameImage) (profiles : List SafetyProfile)
    (model : String) (rest : List String) (le : String) (st : OrchState)
    (le1 : String) (st1 : OrchState)
    (h : profileLoop ctx ts model f l profiles le st = .candidateNext le1 st1) :
    modelLoop ctx ts f l profiles (model :: rest) le st = .candidateDone le1 st1 true := by
  simp only [modelLoop, h]

/-- Exhausting the model list without `moveToNextCandidate` ends the
candidate with `blockedFrameForCandidate = false`. -/
theorem modelLoop_exhausted (ctx : OrchContext) (ts : ℚ)
    (f l : ExtractedFrameImage) (profiles : List SafetyProfile)
    (le : String) (st : OrchState) :
    modelLoop ctx ts f l profiles [] le st = .candidateDone le st false := by
  simp only [modelLoop]

theorem except_ok_bind {ε α β : Type} (a : α) (f : α → Except ε β) :
    (do let x ← (Except.ok a : Except ε α); f x) = f a := rfl

theorem except_pure_eq_ok {ε α : Type} (a : α) : (pure a : Except ε α) = Except.ok a := rfl

/-- The all-or-nothing frame join succeeds when both extractions succeed. -/
theorem frameAcquire_ok (ctx : OrchContext) (ts : ℚ) (f l : ExtractedFrameImage)
    (hf : ctx.frame ts = .ok f)
    (hl : ctx.frame (ts + generatedDurationSeconds) = .ok l) :
    frameAcquire ctx ts = .ok (f, l) := by
  simp only [frameAcquire, hf, hl]
  rfl

/-- Frame acquisition failed for the candidate: record the error and advance
to the next candidate without entering the model loop. -/
theorem candidateLoop_frames_fail (ctx : OrchContext) (profiles : List SafetyProfile)
    (ts : ℚ) (rest : List ℚ) (le : String) (st : OrchState) (msg : String)
    (h : frameAcquire ctx ts = .error msg) :
    candidateLoop ctx profiles (ts :: rest) le st =
      candidateLoop ctx profiles rest
        ("Failed to extract framing images near " ++ toString ts ++ "s. " ++ msg)
        { st with calls := st.calls ++
            [.frameCall ts, .frameCall (ts + generatedDurationSeconds)] } := by
  simp only [candidateLoop, h]

/-- The candidate loop forwards a returned response unchanged. -/
theorem candidateLoop_returned (ctx : OrchContext) (profiles : List SafetyProfile)
    (ts : ℚ) (rest : List ℚ) (le : String) (st : OrchState)
    (f l : ExtractedFrameImage) (resp : VeoResponse) (st2 : OrchState)
    (hfr : frameAcquire ctx ts = .ok (f, l))
    (hml : modelLoop ctx ts f l profiles ctx.cfg.models le
        { st with calls := st.calls ++
            [.frameCall ts, .frameCall (ts + generatedDurationSeconds)] } =
      .returned resp st2) :
    candidateLoop ctx profiles (ts :: rest) le st = (resp, st2) := by
  simp only [candidateLoop, hfr, hml]

/-- `blockedFrameForCandidate`: abandon this candidate and continue with the
next one. -/
theorem candidateLoop_blocked (ctx : OrchContext) (profiles : List SafetyProfile)
    (ts : ℚ) (rest : List ℚ) (le : String) (st : OrchState)
    (f l : ExtractedFrameImage) (le1 : String) (st2 : OrchState)
    (hfr : frameAcquire ctx ts = .ok (f, l))
    (hml : modelLoop ctx ts f l profiles ctx.cfg.models le
        { st with calls := st.calls ++
            [.frameCall ts, .frameCall (ts + generatedDurationSeconds)] } =
      .candidateDone le1 st2 true) :
    candidateLoop ctx profiles (ts :: rest) le st =
      candidateLoop ctx profiles rest le1 st2 := by
  simp only [candidateLoop, hfr, hml]

/-- Models exhausted without a blocked frame: the candidate loop `break`s —
the remaining candidates are never tried and the handler returns the
last-error 500. -/
theorem candidateLoop_break (ctx : OrchContext) (profiles : List SafetyProfile)
    (ts : ℚ) (rest : List ℚ) (le : String) (st : OrchState)
    (f l : ExtractedFrameImage) (le1 : String) (st2 : OrchState)
    (hfr : frameAcquire ctx ts = .ok (f, l))
    (hml : modelLoop ctx ts f l profiles ctx.cfg.models le
        { st with calls := st.calls ++
            [.frameCall ts, .frameCall (ts + generatedDurationSeconds)] } =
      .candidateDone le1 st2 false) :
    candidateLoop ctx profiles (ts :: rest) le st = (.allFailed le1, st2) := by
  simp only [candidateLoop, hfr, hml]

/-- All candidates consumed: the handler returns the last-error 500. -/
theorem candidateLoop_nil (ctx : OrchContext) (profiles : List SafetyProfile)
    (le : String) (st : OrchState) :
    candidateLoop ctx profiles [] le st = (.allFailed le, st) := by
  simp only [candidateLoop]

/-! ## Entry lemmas for the POST handler -/

theorem requestTimestamp_sampleBody (m : ℕ) : requestTimestamp (sampleBody m) = (m : ℚ) := by
  simp [requestTimestamp, sampleBody]

theorem getSafetyProfiles_default :
    getSafetyProfiles "ALLOW_ADULT" true = [⟨"ALLOW_ADULT"⟩, ⟨"ALLOW_ALL"⟩] := by
  decide

/-- Running the handler on `sampleBody m` with empty caches and working
credentials reaches the orchestration loops with the default profile and
candidate lists. -/
theorem POSTmodel_sampleBody (frame : ℚ → Except String ExtractedFrameImage)
    (gen : ℚ → String → String → AttemptResult) (now : Nat) (m : ℕ) :
    POSTmodel {} none frame gen now (sampleBody m) [] [] =
      candidateLoop
        { cfg := {}, gen := gen, frame := frame, now := now
          cacheKey := cacheKeyOfRequest (sampleBody m) sampleAdProduct
          bypassCache := false
          requestedTimestampSeconds := (m : ℚ) }
        [⟨"ALLOW_ADULT"⟩, ⟨"ALLOW_ALL"⟩]
        (buildTimestampCandidates TIMESTAMP_FALLBACK_OFFSETS (m : ℚ))
        "Unknown Veo generation failure." ⟨[], [], []⟩ := by
  have hv : validateProduct (sampleBody m).product = some sampleAdProduct :=
    validateProduct_sample
  have hid : sanitizeVideoId (sampleBody m).videoId = "abc123" := by
    rw [show (sampleBody m).videoId = some "abc123" from rfl]
    decide
  have hbp : ((sampleBody m).bypassCache == some true) = false := rfl
  simp only [POSTmodel, hv, hid, hbp, requestTimestamp_sampleBody]
  rw [if_neg (by decide : ¬("abc123" = ""))]
  norm_num [mapGet, readPersistentCache, getSafetyProfiles_default]

/-- Entry into the orchestration loops: a valid non-bypass request missing
both cache layers reaches `candidateLoop` with untouched caches and an
empty call trace. -/
theorem POSTmodel_entry (cfg : Config)
    (frame : ℚ → Except String ExtractedFrameImage)
    (gen : ℚ → String → String → AttemptResult) (now : Nat)
    (body : VeoRequestBody) (mem disk : CacheMap) (product : AdProduct)
    (hv : validateProduct body.product = some product)
    (hid : ¬(sanitizeVideoId body.videoId = ""))
    (hbp : ((body.bypassCache == some true) || cfg.disableCache) = false)
    (hmem : mapGet mem (cacheKeyOfRequest body product) = none)
    (hdisk : readPersistentCache cfg.persistEnabled disk
      (cacheKeyOfRequest body product) = none) :
    POSTmodel cfg none frame gen now body mem disk =
      candidateLoop
        { cfg := cfg, gen := gen, frame := frame, now := now
          cacheKey := cacheKeyOfRequest body product
          bypassCache := false
          requestedTimestampSeconds := requestTimestamp body }
        (getSafetyProfiles cfg.defaultPersonGeneration cfg.enableFaceSafetyRetry)
        (buildTimestampCandidates cfg.offsets (requestTimestamp body))
        "Unknown Veo generation failure." ⟨mem, disk, []⟩ := by
  simp only [POSTmodel, hv, hbp]
  rw [if_neg hid]
  simp only [Bool.false_eq_true, if_false, hmem, hdisk]

/-- Entry with the cache bypassed: no cache reads, straight to the loops. -/
theorem POSTmodel_entry_bypass (cfg : Config)
    (frame : ℚ → Except String ExtractedFrameImage)
    (gen : ℚ → String → String → AttemptResult) (now : Nat)
    (body : VeoRequestBody) (mem disk : CacheMap) (product : AdProduct)
    (hv : validateProduct body.product = some product)
    (hid : ¬(sanitizeVideoId body.videoId = ""))
    (hbp : ((body.bypassCache == some true) || cfg.disableCache) = true) :
    POSTmodel cfg none frame gen now body mem disk =
      candidateLoop
        { cfg := cfg, gen := gen, frame := frame, now := now
          cacheKey := cacheKeyOfRequest body product
          bypassCache := true
          requestedTimestampSeconds := requestTimestamp body }
        (getSafetyProfiles cfg.defaultPersonGeneration cfg.enableFaceSafetyRetry)
        (buildTimestampCandidates cfg.offsets (requestTimestamp body))
        "Unknown Veo generation failure." ⟨mem, disk, []⟩ := by
  simp only [POSTmodel, hv, hbp]
  rw [if_neg hid]
  simp only [if_true]

/-! ## C10 — Extend with non-positive hold is the identity -/

/-- C10: for every clip and every `holdSeconds ≤ 0`, `extendVideoWithHold`
returns the clip bytes unchanged (with no media-processing invocation), so
padding with `holdSeconds = 0` is idempotent and performs no media
processing. -/
theorem C10_extend_nonpositive_hold_identity
    (ffmpegPad : ℚ → String → Except String String)
    (videoBase64 : String) (holdSeconds : ℚ) (h : holdSeconds ≤ 0) :
    extendVideoWithHold ffmpegPad videoBase64 holdSeconds =
      (.ok ⟨"video/mp4", videoBase64⟩, []) ∧
    extendVideoWithHold ffmpegPad videoBase64 0 =
      (.ok ⟨"video/mp4", videoBase64⟩, []) := by
  constructor
  · simp [extendVideoWithHold, h]
  · simp [extendVideoWithHold]

/-- Concrete instance of `C10_extend_nonpositive_hold_identity`. -/
theorem C10_extend_nonpositive_hold_identity_witness :
    extendVideoWithHold (fun _ s => .ok s) "CLIPBYTES" 0 =
      (.ok ⟨"video/mp4", "CLIPBYTES"⟩, []) ∧
    extendVideoWithHold (fun _ s => .ok s) "CLIPBYTES" 0 =
      (.ok ⟨"video/mp4", "CLIPBYTES"⟩, []) :=
  C10_extend_nonpositive_hold_identity (fun _ s => .ok s) "CLIPBYTES" 0 le_rfl

/-! ## C5 — Cache bound and FIFO eviction -/

/-- C5: after any sequence of puts and accesses the in-memory cache holds at
most the configured capacity of entries, and when a put of a fresh key hits
a full cache, the evicted entry is exactly the earliest-inserted one (the
head of the insertion order) — accesses never change the map, so the `get`
pattern is irrelevant. -/
theorem C5_cache_bound_and_fifo_eviction (maxEntries : Nat) (ops : List CacheOp)
    (k : String) (v : CachedClip)
    (hfresh : k ∉ (runCacheOps maxEntries ops).map Prod.fst)
    (hfull : (runCacheOps maxEntries ops).length = maxEntries)
    (hpos : 0 < maxEntries) :
    (∀ ops2 : List CacheOp, (runCacheOps maxEntries ops2).length ≤ maxEntries) ∧
    writeCache maxEntries (runCacheOps maxEntries ops) k v =
      (runCacheOps maxEntries ops).tail ++ [(k, v)] := by
  constructor
  · intro ops2
    exact foldl_cacheOps_length maxEntries ops2 [] (by simp)
  · apply writeCache_evicts_oldest _ _ _ _ _ hfull hpos
    intro p hp hpk
    exact hfresh (hpk ▸ List.mem_map_of_mem Prod.fst hp)

/-- A cached clip used by the cache witnesses. -/
def witnessClip : CachedClip :=
  { jobId := "a", modelUsed := "m", mimeType := "video/mp4", sourceUri := none,
    videoUrl := "u", cachedAt := 0 }

/-- Concrete instance of `C5_cache_bound_and_fifo_eviction`: capacity 2,
two entries inserted with an access in between, then a fresh third key —
the first-inserted entry is the one evicted. -/
theorem C5_cache_bound_and_fifo_eviction_witness :
    writeCache 2 (runCacheOps 2 [.put "k1" witnessClip, .access "k1",
        .put "k2" witnessClip]) "k3" witnessClip =
      (runCacheOps 2 [.put "k1" witnessClip, .access "k1",
        .put "k2" witnessClip]).tail ++ [("k3", witnessClip)] :=
  (C5_cache_bound_and_fifo_eviction 2
    [.put "k1" witnessClip, .access "k1", .put "k2" witnessClip]
    "k3" witnessClip (by decide) (by decide) (by decide)).2

/-! ## C8 — Frame provider fallback chain -/

/-- A thumbnail-loop error means every variant failed. -/
theorem thumbnailLoop_error_all_fail (fetch : String → FetchOutcome) :
    ∀ (urls : List String) (msg : String), thumbnailLoop fetch urls = .error msg →
      ∀ url ∈ urls, fetchFails (fetch url) = true := by
  intro urls
  induction urls with
  | nil => simp
  | cons u rest ih =>
    intro msg h url hurl
    rcases List.mem_cons.mp hurl with rfl | hmem
    · cases hfo : fetch url with
      | threw => simp [fetchFails, hfo]
      | notOk => simp [fetchFails, hfo]
      | ok ct body =>
        by_cases hb : body.length = 0
        · simp [fetchFails, hfo, hb]
        · exfalso
          simp only [thumbnailLoop, hfo, if_neg hb] at h
          exact Except.noConfusion h
    · cases hfo : fetch u with
      | threw => simp only [thumbnailLoop, hfo] at h; exact ih msg h url hmem
      | notOk => simp only [thumbnailLoop, hfo] at h; exact ih msg h url hmem
      | ok ct body =>
        by_cases hb : body.length = 0
        · simp only [thumbnailLoop, hfo, if_pos hb] at h
          exact ih msg h url hmem
        · exfalso
          simp only [thumbnailLoop, hfo, if_neg hb] at h
          exact Except.noConfusion h

/-- When every variant fails, the thumbnail loop returns the fixed error. -/
theorem thumbnailLoop_all_fail_error (fetch : String → FetchOutcome) :
    ∀ (urls : List String), (∀ url ∈ urls, fetchFails (fetch url) = true) →
      thumbnailLoop fetch urls = .error "Failed to fetch fallback thumbnail frame." := by
  intro urls
  induction urls with
  | nil => simp [thumbnailLoop]
  | cons u rest ih =>
    intro hall
    have hu := hall u (List.mem_cons_self u rest)
    have hrest := fun url hurl => hall url (List.mem_cons_of_mem u hurl)
    cases hfo : fetch u with
    | threw => simp only [thumbnailLoop, hfo]; exact ih hrest
    | notOk => simp only [thumbnailLoop, hfo]; exact ih hrest
    | ok ct body =>
      have hb : body.length = 0 := by simpa [fetchFails, hfo] using hu
      simp only [thumbnailLoop, hfo, if_pos hb]
      exact ih hrest

/-- C8: the frame provider returns the primary frame whenever the primary
path succeeds; when the primary path fails it returns the first thumbnail
variant, in the fixed best-to-worst order, that fetches successfully with a
non-empty body; and it fails exactly when the primary path and every
fallback variant fail. -/
theorem C8_frame_provider_fallback :
    (∀ (fetch : String → FetchOutcome) (videoId : String) (f : ExtractedFrameImage),
      extractFrameFromYouTube (.ok f) fetch videoId = .ok f) ∧
    (∀ (fetch : String → FetchOutcome) (videoId : String) (perr : String),
      extractFrameFromYouTube (.error perr) fetch videoId =
        extractFrameFromThumbnail fetch videoId) ∧
    (∀ (fetch : String → FetchOutcome) (url : String) (rest : List String),
      fetchFails (fetch url) = true →
      thumbnailLoop fetch (url :: rest) = thumbnailLoop fetch rest) ∧
    (∀ (fetch : String → FetchOutcome) (url : String) (rest : List String)
        (ct : Option String) (body : String),
      fetch url = .ok ct body → ¬(body.length = 0) →
      thumbnailLoop fetch (url :: rest) = .ok ⟨jsOrString ct "image/jpeg", body⟩) ∧
    (∀ (primary : Except String ExtractedFrameImage) (fetch : String → FetchOutcome)
        (videoId : String) (msg : String),
      extractFrameFromYouTube primary fetch videoId = .error msg →
      (∃ perr, primary = .error perr) ∧
        ∀ url ∈ thumbnailCandidates videoId, fetchFails (fetch url) = true) ∧
    (∀ (fetch : String → FetchOutcome) (videoId : String) (perr : String),
      (∀ url ∈ thumbnailCandidates videoId, fetchFails (fetch url) = true) →
      extractFrameFromYouTube (.error perr) fetch videoId =
        .error "Failed to fetch fallback thumbnail frame.") := by
  refine ⟨fun _ _ _ => rfl, fun _ _ _ => rfl, ?_, ?_, ?_, ?_⟩
  · intro fetch url rest hfail
    cases hfo : fetch url with
    | threw => simp only [thumbnailLoop, hfo]
    | notOk => simp only [thumbnailLoop, hfo]
    | ok ct body =>
      have hb : body.length = 0 := by simpa [fetchFails, hfo] using hfail
      simp only [thumbnailLoop, hfo, if_pos hb]
  · intro fetch url rest ct body hfo hb
    simp only [thumbnailLoop, hfo, if_neg hb]
  · intro primary fetch videoId msg h
    cases primary with
    | ok f => exact absurd h (by simp [extractFrameFromYouTube])
    | error perr =>
      refine ⟨⟨perr, rfl⟩, ?_⟩
      simp only [extractFrameFromYouTube, extractFrameFromThumbnail] at h
      exact thumbnailLoop_error_all_fail fetch _ msg h
  · intro fetch videoId perr hall
    simp only [extractFrameFromYouTube, extractFrameFromThumbnail]
    exact thumbnailLoop_all_fail_error fetch _ hall

/-- Concrete instance of `C8_frame_provider_fallback`: with a failed primary
extraction and every thumbnail fetch returning a non-ok status, the frame
provider fails, and indeed every variant had failed. -/
theorem C8_frame_provider_fallback_witness :
    (∃ perr, (.error "subprocess failed" : Except String ExtractedFrameImage) =
      .error perr) ∧
    ∀ url ∈ thumbnailCandidates "vid123",
      fetchFails ((fun _ => .notOk : String → FetchOutcome) url) = true :=
  C8_frame_provider_fallback.2.2.2.2.1 (.error "subprocess failed")
    (fun _ => .notOk) "vid123" "Failed to fetch fallback thumbnail frame." rfl

/-! ## C9 — Request validation (corrected: benefit strings not inspected) -/

/-- C9 (amended): a request whose product payload fails validation — the
product missing, any of the eight required scalar fields absent or empty
after trimming, or `benefits` not an array of exactly three entries — or
whose videoId sanitizes to the empty string, is rejected with HTTP 400
before any external call: the caches are untouched and the call trace is
empty.  Acceptance implies all those checks passed; the three benefit
strings themselves are not inspected (they may be empty). -/
theorem C9_invalid_rejected_before_externals (cfg : Config)
    (clientError : Option String) (frame : ℚ → Except String ExtractedFrameImage)
    (gen : ℚ → String → String → AttemptResult) (now : Nat)
    (body : VeoRequestBody) (mem disk : CacheMap) :
    (validateProduct body.product = none →
      POSTmodel cfg clientError frame gen now body mem disk =
        (.invalid 400 "Invalid product payload for ad generation.", ⟨mem, disk, []⟩)) ∧
    (∀ product, validateProduct body.product = some product →
      sanitizeVideoId body.videoId = "" →
      POSTmodel cfg clientError frame gen now body mem disk =
        (.invalid 400 "Missing valid videoId for Veo ad generation.", ⟨mem, disk, []⟩)) ∧
    (∀ p : AdProductPayload, validateProduct (some p) ≠ none →
      requiredStringOk p.id = true ∧ requiredStringOk p.brandName = true ∧
      requiredStringOk p.productName = true ∧ requiredStringOk p.tagline = true ∧
      requiredStringOk p.visualDescription = true ∧
      requiredStringOk p.actionScript = true ∧
      requiredStringOk p.colorFrom = true ∧ requiredStringOk p.colorTo = true ∧
      ∃ bs, p.benefits = some bs ∧ bs.length = 3) := by
  refine ⟨?_, ?_, ?_⟩
  · intro h
    simp only [POSTmodel, h]
  · intro product hp hid
    simp only [POSTmodel, hp, hid]
    simp
  · intro p hne
    simp only [validateProduct] at hne
    by_cases hreq : (requiredStringOk p.id && requiredStringOk p.brandName &&
        requiredStringOk p.productName && requiredStringOk p.tagline &&
        requiredStringOk p.visualDescription && requiredStringOk p.actionScript &&
        requiredStringOk p.colorFrom && requiredStringOk p.colorTo) = true
    · rw [if_pos hreq] at hne
      simp only [Bool.and_eq_true] at hreq
      obtain ⟨⟨⟨⟨⟨⟨⟨h1, h2⟩, h3⟩, h4⟩, h5⟩, h6⟩, h7⟩, h8⟩ := hreq
      refine ⟨h1, h2, h3, h4, h5, h6, h7, h8, ?_⟩
      cases hb : p.benefits with
      | none =>
        exfalso
        simp only [hb] at hne
        exact hne rfl
      | some bs =>
        by_cases hlen : bs.length = 3
        · exact ⟨bs, by simp [hb], hlen⟩
        · exfalso
          simp only [hb, if_neg hlen] at hne
          exact hne rfl
    · rw [if_neg hreq] at hne
      exact absurd rfl hne

/-- Concrete instance of `C9_invalid_rejected_before_externals`: a body with
no product at all is rejected with 400, untouched caches and no calls. -/
theorem C9_invalid_rejected_before_externals_witness :
    POSTmodel {} none frameAlwaysOk genAlwaysOk 0 {} [] [] =
      (.invalid 400 "Invalid product payload for ad generation.", ⟨[], [], []⟩) :=
  (C9_invalid_rejected_before_externals {} none frameAlwaysOk genAlwaysOk 0 {} [] []).1 rfl

/-- A product payload identical to `sampleProduct` except that all three
benefit strings are empty. -/
def emptyBenefitsProduct : AdProductPayload :=
  { sampleProduct with benefits := some ["", "", ""] }

/-- What `validateProduct` returns for it. -/
def emptyBenefitsAdProduct : AdProduct :=
  { sampleAdProduct with benefits := ["", "", ""] }

/-- A request carrying the empty-benefits product. -/
def emptyBenefitsBody : VeoRequestBody :=
  { videoId := some "abc123", timestampSeconds := some 0,
    product := some emptyBenefitsProduct }

/-- The successful response that request produces with the sample oracles. -/
def emptyBenefitsResponse : CachedClip :=
  { jobId := "op-1", status := "completed",
    modelUsed := "veo-3.1-fast-generate-preview", mimeType := "video/mp4",
    sourceUri := none, videoUrl := "data:video/mp4;base64,VIDBYTES", cachedAt := 0,
    requestedTimestampSeconds := some 0, appliedTimestampSeconds := some 0,
    personGenerationUsed := some "ALLOW_ADULT" }

/-- C9 counterexample: a product whose three benefit strings are all empty
is accepted by `validateProduct`, and the request is not rejected — the
handler extracts frames, calls the model, and returns a generated clip —
contradicting the claim that a product with an empty benefit string is
rejected as InvalidRequest before any external call. -/
theorem C9_counterexample :
    validateProduct (some emptyBenefitsProduct) = some emptyBenefitsAdProduct ∧
    emptyBenefitsProduct.benefits = some ["", "", ""] ∧
    POSTmodel {} none frameAlwaysOk genAlwaysOk 0 emptyBenefitsBody [] [] =
      (.clipResponse emptyBenefitsResponse false,
        ⟨[(cacheKeyOfRequest emptyBenefitsBody emptyBenefitsAdProduct,
            emptyBenefitsResponse)],
         [(cacheKeyOfRequest emptyBenefitsBody emptyBenefitsAdProduct,
            emptyBenefitsResponse)],
         [.frameCall 0, .frameCall 8,
          .genCall 0 "veo-3.1-fast-generate-preview" "ALLOW_ADULT" 8
            "FRAMEBYTES" "FRAMEBYTES"]⟩) := by
  refine ⟨by decide, by decide, ?_⟩
  have hv : validateProduct emptyBenefitsBody.product = some emptyBenefitsAdProduct := by
    decide
  have hreq : requestTimestamp emptyBenefitsBody = ((0 : ℕ) : ℚ) := by
    norm_num [requestTimestamp, emptyBenefitsBody]
  obtain ⟨rest, hc⟩ := buildTimestampCandidates_natCast 0
  rw [POSTmodel_entry {} frameAlwaysOk genAlwaysOk 0 emptyBenefitsBody [] []
    emptyBenefitsAdProduct hv (by decide) rfl rfl rfl]
  rw [hreq]
  rw [show ({} : Config).offsets = TIMESTAMP_FALLBACK_OFFSETS from rfl, hc]
  rw [show getSafetyProfiles ({} : Config).defaultPersonGeneration
    ({} : Config).enableFaceSafetyRetry =
      [⟨"ALLOW_ADULT"⟩, ⟨"ALLOW_ALL"⟩] from by decide]
  simp only [candidateLoop, frameAcquire, frameAlwaysOk, except_ok_bind,
    except_pure_eq_ok, modelLoop, profileLoop, genAlwaysOk]
  norm_num [successResponse, generatedDurationSeconds_eq, writeCache, mapSet,
    writePersistentCache, emptyBenefitsResponse, sampleClip, samplePic]
  decide

/-! ## C6 — Target duration is the constant, not the request field -/

/-- C6 (amended): the target duration used throughout the pipeline is the
constant `AD_INSERT_DURATION_SECONDS = 8`; the request's `durationSeconds`
field is ignored entirely — the handler's behaviour and the cache key are
unchanged under any modification of that field — and the duration submitted
to the generation call equals the same constant. -/
theorem C6_duration_ignores_request_field (cfg : Config) (clientError : Option String)
    (frame : ℚ → Except String ExtractedFrameImage)
    (gen : ℚ → String → String → AttemptResult) (now : Nat)
    (body : VeoRequestBody) (mem disk : CacheMap) (d : Option ℚ) :
    POSTmodel cfg clientError frame gen now { body with durationSeconds := d } mem disk =
      POSTmodel cfg clientError frame gen now body mem disk ∧
    (∀ product : AdProduct,
      cacheKeyOfRequest { body with durationSeconds := d } product =
        cacheKeyOfRequest body product) ∧
    generatedDurationSeconds = AD_INSERT_DURATION_SECONDS ∧
    AD_INSERT_DURATION_SECONDS = 8 :=
  ⟨rfl, fun _ => rfl,
    by norm_num [generatedDurationSeconds, AD_INSERT_DURATION_SECONDS,
      VEO_MAX_IMAGE_TO_VIDEO_SECONDS], rfl⟩

/-- Request at timestamp 30 whose `durationSeconds` field is `d`. -/
def durationBody (d : ℚ) : VeoRequestBody :=
  { sampleBody 30 with durationSeconds := some d }

/-- The response the `durationBody` runs produce with the sample oracles. -/
def durationBodyResponse : CachedClip :=
  { jobId := "op-1", status := "completed",
    modelUsed := "veo-3.1-fast-generate-preview", mimeType := "video/mp4",
    sourceUri := none, videoUrl := "data:video/mp4;base64,VIDBYTES", cachedAt := 0,
    requestedTimestampSeconds := some 30, appliedTimestampSeconds := some 30,
    personGenerationUsed := some "ALLOW_ADULT" }

/-- C6 counterexample: two requests differing only in `durationSeconds`
(5 versus 12 seconds) have the same cache key and identical processing —
and the generation config carries duration 8, not the requested value —
contradicting the claim that the pipeline uses the request's
`durationSeconds` and that such requests get distinct cache keys. -/
theorem C6_counterexample :
    cacheKeyOfRequest (durationBody 5) sampleAdProduct =
      cacheKeyOfRequest (durationBody 12) sampleAdProduct ∧
    POSTmodel {} none frameAlwaysOk genAlwaysOk 0 (durationBody 5) [] [] =
      POSTmodel {} none frameAlwaysOk genAlwaysOk 0 (durationBody 12) [] [] ∧
    POSTmodel {} none frameAlwaysOk genAlwaysOk 0 (durationBody 5) [] [] =
      (.clipResponse durationBodyResponse false,
        ⟨[(cacheKeyOfRequest (durationBody 5) sampleAdProduct, durationBodyResponse)],
         [(cacheKeyOfRequest (durationBody 5) sampleAdProduct, durationBodyResponse)],
         [.frameCall 30, .frameCall 38,
          .genCall 30 "veo-3.1-fast-generate-preview" "ALLOW_ADULT" 8
            "FRAMEBYTES" "FRAMEBYTES"]⟩) := by
  refine ⟨rfl, rfl, ?_⟩
  have hv : validateProduct (durationBody 5).product = some sampleAdProduct := by
    decide
  have hreq : requestTimestamp (durationBody 5) = ((30 : ℕ) : ℚ) := by
    norm_num [requestTimestamp, durationBody, sampleBody]
  obtain ⟨rest, hc⟩ := buildTimestampCandidates_natCast 30
  rw [POSTmodel_entry {} frameAlwaysOk genAlwaysOk 0 (durationBody 5) [] []
    sampleAdProduct hv (by decide) rfl rfl rfl]
  rw [hreq]
  rw [show ({} : Config).offsets = TIMESTAMP_FALLBACK_OFFSETS from rfl, hc]
  rw [show getSafetyProfiles ({} : Config).defaultPersonGeneration
    ({} : Config).enableFaceSafetyRetry =
      [⟨"ALLOW_ADULT"⟩, ⟨"ALLOW_ALL"⟩] from by decide]
  simp only [candidateLoop, frameAcquire, frameAlwaysOk, except_ok_bind,
    except_pure_eq_ok, modelLoop, profileLoop, genAlwaysOk]
  norm_num [successResponse, generatedDurationSeconds_eq, writeCache, mapSet,
    writePersistentCache, durationBodyResponse, sampleClip, samplePic]
  decide

/-! ## C2 — Policy for non-retryable errors (corrected: exhaustion of the
model list terminates the orchestration instead of advancing) -/

/-- When every attempt at a candidate fails with the same non-terminal,
non-retryable error, the model loop consumes the whole model list (one
attempt per model, always restarting at the first safety profile) and ends
the candidate with `blockedFrameForCandidate = false`. -/
theorem modelLoop_all_other (ctx : OrchContext) (ts : ℚ)
    (f l : ExtractedFrameImage) (p : SafetyProfile) (ps : List SafetyProfile)
    (e : ApiError)
    (hgen : ∀ mdl pg, ctx.gen ts mdl pg = .err e)
    (h403 : ¬(e.code = 403 ∨ e.status = "PERMISSION_DENIED"))
    (h429 : ¬(e.code = 429 ∨ e.status = "RESOURCE_EXHAUSTED"))
    (hcls : isBlockedInputImageError e.message = false)
    (hmis : isMissingSampleError e.message = false) :
    ∀ (models : List String) (le : String) (st : OrchState), models ≠ [] →
      modelLoop ctx ts f l (p :: ps) models le st =
        .candidateDone e.message
          { st with calls := st.calls ++ models.map (fun mdl =>
              .genCall ts mdl p.personGeneration generatedDurationSeconds
                f.imageBytes l.imageBytes) } false := by
  intro models
  induction models with
  | nil => intro le st h; exact absurd rfl h
  | cons mdl rest ih =>
    intro le st _
    rw [modelLoop_next ctx ts f l (p :: ps) mdl rest le st e.message _
      (profileLoop_other ctx ts mdl f l p ps le st e (hgen mdl p.personGeneration)
        h403 h429 hcls hmis)]
    cases rest with
    | nil =>
      rw [modelLoop_exhausted]
      simp
    | cons mdl2 rest2 =>
      rw [ih e.message _ (by simp)]
      simp

/-- C2 (amended): an attempt failing with an error that is not
PermissionDenied, QuotaExceeded, BlockedInputImage, or MissingGeneratedSample
makes the orchestrator advance to the next model for the same timestamp
candidate, restarting from the first safety profile; but when the model list
is exhausted for that candidate by such errors, the orchestration terminates
with the last error — the remaining timestamp candidates are NOT tried. -/
theorem C2_other_error_next_model_then_terminate :
    (∀ (ctx : OrchContext) (ts : ℚ) (model : String) (f l : ExtractedFrameImage)
        (p : SafetyProfile) (rest : List SafetyProfile) (le : String)
        (st : OrchState) (e : ApiError),
      ctx.gen ts model p.personGeneration = .err e →
      ¬(e.code = 403 ∨ e.status = "PERMISSION_DENIED") →
      ¬(e.code = 429 ∨ e.status = "RESOURCE_EXHAUSTED") →
      isBlockedInputImageError e.message = false →
      isMissingSampleError e.message = false →
      profileLoop ctx ts model f l (p :: rest) le st =
        .modelNext e.message
          { st with calls := st.calls ++ [.genCall ts model p.personGeneration
              generatedDurationSeconds f.imageBytes l.imageBytes] }) ∧
    (∀ (ctx : OrchContext) (ts : ℚ) (f l : ExtractedFrameImage)
        (profiles : List SafetyProfile) (model : String) (restm : List String)
        (le : String) (st : OrchState) (le1 : String) (st1 : OrchState),
      profileLoop ctx ts model f l profiles le st = .modelNext le1 st1 →
      modelLoop ctx ts f l profiles (model :: restm) le st =
        modelLoop ctx ts f l profiles restm le1 st1) ∧
    (∀ (ctx : OrchContext) (ts : ℚ) (f l : ExtractedFrameImage)
        (p : SafetyProfile) (ps : List SafetyProfile) (e : ApiError)
        (restCands : List ℚ) (le : String) (st : OrchState),
      frameAcquire ctx ts = .ok (f, l) →
      (∀ mdl pg, ctx.gen ts mdl pg = .err e) →
      ¬(e.code = 403 ∨ e.status = "PERMISSION_DENIED") →
      ¬(e.code = 429 ∨ e.status = "RESOURCE_EXHAUSTED") →
      isBlockedInputImageError e.message = false →
      isMissingSampleError e.message = false →
      ctx.cfg.models ≠ [] →
      candidateLoop ctx (p :: ps) (ts :: restCands) le st =
        (.allFailed e.message,
          { st with calls := (st.calls ++
              [.frameCall ts, .frameCall (ts + generatedDurationSeconds)]) ++
              ctx.cfg.models.map (fun mdl =>
                .genCall ts mdl p.personGeneration generatedDurationSeconds
                  f.imageBytes l.imageBytes) })) := by
  refine ⟨profileLoop_other, modelLoop_next, ?_⟩
  intro ctx ts f l p ps e restCands le st hfr hgen h403 h429 hcls hmis hmodels
  exact candidateLoop_break ctx (p :: ps) ts restCands le st f l e.message _ hfr
    (modelLoop_all_other ctx ts f l p ps e hgen h403 h429 hcls hmis
      ctx.cfg.models le _ hmodels)

/-- A generation oracle that fails with an internal (non-retryable,
non-terminal) error at timestamp 0 and succeeds anywhere else. -/
def genFailsAtZero : ℚ → String → String → AttemptResult := fun t _ _ =>
  if t = 0 then .err otherInternalError else .ok sampleClip

/-- C2 counterexample: with both configured models failing at candidate 0
with an internal error, generation would succeed at candidate 1 (offset
+3s) — `genFailsAtZero 3 ... = ok` — but the orchestrator terminates with
the 500 last-error response after the two model attempts at candidate 0:
no attempt at timestamp 3 appears in the trace, contradicting the claim
that it advances to the next timestamp candidate. -/
theorem C2_counterexample :
    genFailsAtZero 3 "veo-3.1-fast-generate-preview" "ALLOW_ADULT" = .ok sampleClip ∧
    POSTmodel {} none frameAlwaysOk genFailsAtZero 0 (sampleBody 0) [] [] =
      (.allFailed "Internal provider failure.",
        ⟨[], [],
         [.frameCall 0, .frameCall 8,
          .genCall 0 "veo-3.1-fast-generate-preview" "ALLOW_ADULT" 8
            "FRAMEBYTES" "FRAMEBYTES",
          .genCall 0 "veo-3.1-generate-preview" "ALLOW_ADULT" 8
            "FRAMEBYTES" "FRAMEBYTES"]⟩) := by
  refine ⟨by norm_num [genFailsAtZero], ?_⟩
  have hv : validateProduct (sampleBody 0).product = some sampleAdProduct :=
    validateProduct_sample
  have hreq : requestTimestamp (sampleBody 0) = ((0 : ℕ) : ℚ) := by
    norm_num [requestTimestamp, sampleBody]
  obtain ⟨rest, hc⟩ := buildTimestampCandidates_natCast 0
  norm_num at hc
  rw [POSTmodel_entry {} frameAlwaysOk genFailsAtZero 0 (sampleBody 0) [] []
    sampleAdProduct hv (by decide) rfl rfl rfl]
  rw [hreq]
  norm_num
  rw [hc, getSafetyProfiles_default]
  simp only [candidateLoop, frameAcquire, frameAlwaysOk, except_ok_bind,
    except_pure_eq_ok, modelLoop, profileLoop, genFailsAtZero, otherInternalError]
  norm_num [generatedDurationSeconds_eq, samplePic,
    isBlockedInputImageError, isMissingSampleError, isFaceSafetyBlock,
    isUsageGuidelineBlock, strContains, strToLower]
  decide

/-- Concrete instance of `C2_other_error_next_model_then_terminate`'s
termination conjunct: one profile, two candidates — after the models are
exhausted at candidate 0 the loop returns the last error without touching
candidate 3. -/
theorem C2_other_error_next_model_then_terminate_witness :
    candidateLoop
      { cfg := {}, gen := genFailsAtZero, frame := frameAlwaysOk, now := 0
        cacheKey := "k", bypassCache := false, requestedTimestampSeconds := 0 }
      [⟨"ALLOW_ADULT"⟩] [0, 3] "previous error" ⟨[], [], []⟩ =
      (.allFailed otherInternalError.message,
        ⟨[], [],
          ([] ++ [.frameCall 0, .frameCall (0 + generatedDurationSeconds)]) ++
            ["veo-3.1-fast-generate-preview", "veo-3.1-generate-preview"].map
              (fun mdl => .genCall 0 mdl "ALLOW_ADULT" generatedDurationSeconds
                samplePic.imageBytes samplePic.imageBytes)⟩) :=
  C2_other_error_next_model_then_terminate.2.2
    { cfg := {}, gen := genFailsAtZero, frame := frameAlwaysOk, now := 0
      cacheKey := "k", bypassCache := false, requestedTimestampSeconds := 0 }
    0 samplePic samplePic ⟨"ALLOW_ADULT"⟩ [] otherInternalError [3]
    "previous error" ⟨[], [], []⟩ rfl
    (fun mdl pg => by simp [genFailsAtZero]) (by decide) (by decide)
    (by decide) (by decide) (by decide)

/-! ## C3 — PermissionDenied / QuotaExceeded abort immediately -/

/-- C3: an attempt failing with a 403/PERMISSION_DENIED or a
429/RESOURCE_EXHAUSTED classification aborts the whole orchestration
immediately with the corresponding distinct status, whatever profiles,
models, or candidates remain; in particular, a request whose very first
attempt fails that way ends with exactly one generation attempt in the
trace and no cache writes. -/
theorem C3_terminal_errors_abort_immediately :
    (∀ (ctx : OrchContext) (ts : ℚ) (model : String) (f l : ExtractedFrameImage)
        (p : SafetyProfile) (rest : List SafetyProfile) (le : String)
        (st : OrchState) (e : ApiError),
      ctx.gen ts model p.personGeneration = .err e →
      (e.code = 403 ∨ e.status = "PERMISSION_DENIED") →
      profileLoop ctx ts model f l (p :: rest) le st =
        .report (.terminalErr 403
          "Vertex permission denied for current credentials/project." e.message)
          { st with calls := st.calls ++ [.genCall ts model p.personGeneration
              generatedDurationSeconds f.imageBytes l.imageBytes] }) ∧
    (∀ (ctx : OrchContext) (ts : ℚ) (model : String) (f l : ExtractedFrameImage)
        (p : SafetyProfile) (rest : List SafetyProfile) (le : String)
        (st : OrchState) (e : ApiError),
      ctx.gen ts model p.personGeneration = .err e →
      ¬(e.code = 403 ∨ e.status = "PERMISSION_DENIED") →
      (e.code = 429 ∨ e.status = "RESOURCE_EXHAUSTED") →
      profileLoop ctx ts model f l (p :: rest) le st =
        .report (.terminalErr 429
          "Veo quota exceeded for current billing/quota project." e.message)
          { st with calls := st.calls ++ [.genCall ts model p.personGeneration
              generatedDurationSeconds f.imageBytes l.imageBytes] }) ∧
    (∀ (m : ℕ) (frame : ℚ → Except String ExtractedFrameImage)
        (gen : ℚ → String → String → AttemptResult)
        (pic : ExtractedFrameImage) (e : ApiError),
      (∀ t, frame t = .ok pic) →
      gen (m : ℚ) "veo-3.1-fast-generate-preview" "ALLOW_ADULT" = .err e →
      (e.code = 403 ∨ e.status = "PERMISSION_DENIED") →
      POSTmodel {} none frame gen 0 (sampleBody m) [] [] =
        (.terminalErr 403
          "Vertex permission denied for current credentials/project." e.message,
          ⟨[], [], [.frameCall (m : ℚ), .frameCall ((m : ℚ) + 8),
            .genCall (m : ℚ) "veo-3.1-fast-generate-preview" "ALLOW_ADULT" 8
              pic.imageBytes pic.imageBytes]⟩)) ∧
    (∀ (m : ℕ) (frame : ℚ → Except String ExtractedFrameImage)
        (gen : ℚ → String → String → AttemptResult)
        (pic : ExtractedFrameImage) (e : ApiError),
      (∀ t, frame t = .ok pic) →
      gen (m : ℚ) "veo-3.1-fast-generate-preview" "ALLOW_ADULT" = .err e →
      ¬(e.code = 403 ∨ e.status = "PERMISSION_DENIED") →
      (e.code = 429 ∨ e.status = "RESOURCE_EXHAUSTED") →
      POSTmodel {} none frame gen 0 (sampleBody m) [] [] =
        (.terminalErr 429
          "Veo quota exceeded for current billing/quota project." e.message,
          ⟨[], [], [.frameCall (m : ℚ), .frameCall ((m : ℚ) + 8),
            .genCall (m : ℚ) "veo-3.1-fast-generate-preview" "ALLOW_ADULT" 8
              pic.imageBytes pic.imageBytes]⟩)) := by
  refine ⟨profileLoop_perm, profileLoop_quota, ?_, ?_⟩
  · intro m frame gen pic e hframe hg h403
    rw [POSTmodel_sampleBody frame gen 0 m]
    obtain ⟨rest, hc⟩ := buildTimestampCandidates_natCast m
    rw [hc]
    rw [candidateLoop_returned _ _ _ _ _ _ pic pic _ _
      (frameAcquire_ok _ _ _ _ (hframe _) (hframe _))
      (modelLoop_report _ _ _ _ _ _ _ _ _ _ _
        (profileLoop_perm _ _ _ _ _ _ _ _ _ e hg h403))]
    simp [generatedDurationSeconds_eq]
  · intro m frame gen pic e hframe hg h403 h429
    rw [POSTmodel_sampleBody frame gen 0 m]
    obtain ⟨rest, hc⟩ := buildTimestampCandidates_natCast m
    rw [hc]
    rw [candidateLoop_returned _ _ _ _ _ _ pic pic _ _
      (frameAcquire_ok _ _ _ _ (hframe _) (hframe _))
      (modelLoop_report _ _ _ _ _ _ _ _ _ _ _
        (profileLoop_quota _ _ _ _ _ _ _ _ _ e hg h403 h429))]
    simp [generatedDurationSeconds_eq]

/-- A generation oracle that always reports a permission-denied error. -/
def genPermDenied : ℚ → String → String → AttemptResult := fun _ _ _ =>
  .err ⟨403, "PERMISSION_DENIED", "Caller lacks permission on the project."⟩

/-- Concrete instance of `C3_terminal_errors_abort_immediately`: a 403 on
the very first attempt returns immediately with exactly one generation
attempt in the trace. -/
theorem C3_terminal_errors_abort_immediately_witness :
    POSTmodel {} none frameAlwaysOk genPermDenied 0 (sampleBody 7) [] [] =
      (.terminalErr 403
        "Vertex permission denied for current credentials/project."
        "Caller lacks permission on the project.",
        ⟨[], [], [.frameCall ((7 : ℕ) : ℚ), .frameCall (((7 : ℕ) : ℚ) + 8),
          .genCall ((7 : ℕ) : ℚ) "veo-3.1-fast-generate-preview" "ALLOW_ADULT" 8
            "FRAMEBYTES" "FRAMEBYTES"]⟩) :=
  C3_terminal_errors_abort_immediately.2.2.1 7 frameAlwaysOk genPermDenied
    samplePic ⟨403, "PERMISSION_DENIED", "Caller lacks permission on the project."⟩
    (fun _ => rfl) rfl (by decide)

/-! ## C1 — Blocked-input policy: retry profiles, then abandon candidate -/

/-- C1: a `BlockedInputImage`/`MissingGeneratedSample` failure advances only
the safety-profile index (same candidate, same model, same frames) while a
profile remains; with profiles exhausted it abandons the timestamp
candidate entirely, skipping the remaining models; and when every profile
is blocked for candidate 0 but candidate 1 (offset +3s) succeeds, the
returned clip carries `appliedTimestampSeconds = requested + 3` and no
later candidate — and no second model for candidate 0 — is ever attempted
(the trace is exactly: frames and two profile attempts at the requested
timestamp, then frames and one successful attempt at +3s). -/
theorem C1_blocked_retries_profile_then_shifts_candidate :
    (∀ (ctx : OrchContext) (ts : ℚ) (model : String) (f l : ExtractedFrameImage)
        (p q : SafetyProfile) (rest : List SafetyProfile) (le : String)
        (st : OrchState) (e : ApiError),
      ctx.gen ts model p.personGeneration = .err e →
      ¬(e.code = 403 ∨ e.status = "PERMISSION_DENIED") →
      ¬(e.code = 429 ∨ e.status = "RESOURCE_EXHAUSTED") →
      (isBlockedInputImageError e.message = true ∨
        isMissingSampleError e.message = true) →
      profileLoop ctx ts model f l (p :: q :: rest) le st =
        profileLoop ctx ts model f l (q :: rest) e.message
          { st with calls := st.calls ++ [.genCall ts model p.personGeneration
              generatedDurationSeconds f.imageBytes l.imageBytes] }) ∧
    (∀ (ctx : OrchContext) (ts : ℚ) (model : String) (f l : ExtractedFrameImage)
        (p : SafetyProfile) (le : String) (st : OrchState) (e : ApiError),
      ctx.gen ts model p.personGeneration = .err e →
      ¬(e.code = 403 ∨ e.status = "PERMISSION_DENIED") →
      ¬(e.code = 429 ∨ e.status = "RESOURCE_EXHAUSTED") →
      (isBlockedInputImageError e.message = true ∨
        isMissingSampleError e.message = true) →
      profileLoop ctx ts model f l [p] le st =
        .candidateNext e.message
          { st with calls := st.calls ++ [.genCall ts model p.personGeneration
              generatedDurationSeconds f.imageBytes l.imageBytes] }) ∧
    (∀ (ctx : OrchContext) (ts : ℚ) (f l : ExtractedFrameImage)
        (profiles : List SafetyProfile) (model : String) (restm : List String)
        (le : String) (st : OrchState) (le1 : String) (st1 : OrchState),
      profileLoop ctx ts model f l profiles le st = .candidateNext le1 st1 →
      modelLoop ctx ts f l profiles (model :: restm) le st =
        .candidateDone le1 st1 true) ∧
    (∀ (m : ℕ) (frame : ℚ → Except String ExtractedFrameImage)
        (gen : ℚ → String → String → AttemptResult)
        (pic : ExtractedFrameImage) (clip : GeneratedClip),
      (∀ t, frame t = .ok pic) →
      (∀ mdl pg, gen (m : ℚ) mdl pg = .err blockedInputError) →
      gen ((m : ℚ) + 3) "veo-3.1-fast-generate-preview" "ALLOW_ADULT" = .ok clip →
      POSTmodel {} none frame gen 0 (sampleBody m) [] [] =
        (.clipResponse
          { jobId := clip.jobId, status := "completed"
            modelUsed := "veo-3.1-fast-generate-preview"
            mimeType := clip.mimeType, sourceUri := clip.sourceUri
            videoUrl := "data:" ++ clip.mimeType ++ ";base64," ++ clip.base64
            cachedAt := 0, requestedTimestampSeconds := some (m : ℚ)
            appliedTimestampSeconds := some ((m : ℚ) + 3)
            personGenerationUsed := some "ALLOW_ADULT" } false,
          ⟨[(cacheKeyOfRequest (sampleBody m) sampleAdProduct,
              { jobId := clip.jobId, status := "completed"
                modelUsed := "veo-3.1-fast-generate-preview"
                mimeType := clip.mimeType, sourceUri := clip.sourceUri
                videoUrl := "data:" ++ clip.mimeType ++ ";base64," ++ clip.base64
                cachedAt := 0, requestedTimestampSeconds := some (m : ℚ)
                appliedTimestampSeconds := some ((m : ℚ) + 3)
                personGenerationUsed := some "ALLOW_ADULT" })],
           [(cacheKeyOfRequest (sampleBody m) sampleAdProduct,
              { jobId := clip.jobId, status := "completed"
                modelUsed := "veo-3.1-fast-generate-preview"
                mimeType := clip.mimeType, sourceUri := clip.sourceUri
                videoUrl := "data:" ++ clip.mimeType ++ ";base64," ++ clip.base64
                cachedAt := 0, requestedTimestampSeconds := some (m : ℚ)
                appliedTimestampSeconds := some ((m : ℚ) + 3)
                personGenerationUsed := some "ALLOW_ADULT" })],
           [.frameCall (m : ℚ), .frameCall ((m : ℚ) + 8),
            .genCall (m : ℚ) "veo-3.1-fast-generate-preview" "ALLOW_ADULT" 8
              pic.imageBytes pic.imageBytes,
            .genCall (m : ℚ) "veo-3.1-fast-generate-preview" "ALLOW_ALL" 8
              pic.imageBytes pic.imageBytes,
            .frameCall ((m : ℚ) + 3), .frameCall ((m : ℚ) + 11),
            .genCall ((m : ℚ) + 3) "veo-3.1-fast-generate-preview" "ALLOW_ADULT" 8
              pic.imageBytes pic.imageBytes]⟩)) := by
  refine ⟨profileLoop_retry, profileLoop_abandon, modelLoop_abandon, ?_⟩
  intro m frame gen pic clip hframe hblock hsuccess
  have h403b : ¬(blockedInputError.code = 403 ∨
      blockedInputError.status = "PERMISSION_DENIED") := by decide
  have h429b : ¬(blockedInputError.code = 429 ∨
      blockedInputError.status = "RESOURCE_EXHAUSTED") := by decide
  have hbl : isBlockedInputImageError blockedInputError.message = true ∨
      isMissingSampleError blockedInputError.message = true := by decide
  rw [POSTmodel_sampleBody frame gen 0 m]
  obtain ⟨rest, hc⟩ := buildTimestampCandidates_natCast m
  rw [hc]
  rw [candidateLoop_blocked _ _ _ _ _ _ pic pic _ _
    (frameAcquire_ok _ _ _ _ (hframe _) (hframe _))
    (modelLoop_abandon _ _ _ _ _ _ _ _ _ _ _
      ((profileLoop_retry _ _ _ _ _ _ _ _ _ _ blockedInputError
          (hblock _ _) h403b h429b hbl).trans
        (profileLoop_abandon _ _ _ _ _ _ _ _ blockedInputError
          (hblock _ _) h403b h429b hbl)))]
  rw [candidateLoop_returned _ _ _ _ _ _ pic pic _ _
    (frameAcquire_ok _ _ _ _ (hframe _) (hframe _))
    (modelLoop_report _ _ _ _ _ _ _ _ _ _ _
      (profileLoop_ok _ _ _ _ _ _ _ _ _ clip hsuccess rfl))]
  have h11 : (m : ℚ) + 3 + generatedDurationSeconds = (m : ℚ) + 11 := by
    rw [generatedDurationSeconds_eq]
    ring
  simp [successResponse, generatedDurationSeconds_eq, h11, writeCache, mapSet,
    writePersistentCache]
  ring

/-- A generation oracle blocked (content policy) at timestamp 0 and
succeeding anywhere else. -/
def genBlockedAtZero : ℚ → String → String → AttemptResult := fun t _ _ =>
  if t = 0 then .err blockedInputError else .ok sampleClip

/-- Concrete instance of the end-to-end scenario of
`C1_blocked_retries_profile_then_shifts_candidate` at requested
timestamp 0. -/
theorem C1_blocked_retries_profile_then_shifts_candidate_witness :
    POSTmodel {} none frameAlwaysOk genBlockedAtZero 0 (sampleBody 0) [] [] =
      (.clipResponse
        { jobId := sampleClip.jobId, status := "completed"
          modelUsed := "veo-3.1-fast-generate-preview"
          mimeType := sampleClip.mimeType, sourceUri := sampleClip.sourceUri
          videoUrl := "data:" ++ sampleClip.mimeType ++ ";base64," ++ sampleClip.base64
          cachedAt := 0, requestedTimestampSeconds := some ((0 : ℕ) : ℚ)
          appliedTimestampSeconds := some (((0 : ℕ) : ℚ) + 3)
          personGenerationUsed := some "ALLOW_ADULT" } false,
        ⟨[(cacheKeyOfRequest (sampleBody 0) sampleAdProduct,
            { jobId := sampleClip.jobId, status := "completed"
              modelUsed := "veo-3.1-fast-generate-preview"
              mimeType := sampleClip.mimeType, sourceUri := sampleClip.sourceUri
              videoUrl := "data:" ++ sampleClip.mimeType ++ ";base64," ++ sampleClip.base64
              cachedAt := 0, requestedTimestampSeconds := some ((0 : ℕ) : ℚ)
              appliedTimestampSeconds := some (((0 : ℕ) : ℚ) + 3)
              personGenerationUsed := some "ALLOW_ADULT" })],
         [(cacheKeyOfRequest (sampleBody 0) sampleAdProduct,
            { jobId := sampleClip.jobId, status := "completed"
              modelUsed := "veo-3.1-fast-generate-preview"
              mimeType := sampleClip.mimeType, sourceUri := sampleClip.sourceUri
              videoUrl := "data:" ++ sampleClip.mimeType ++ ";base64," ++ sampleClip.base64
              cachedAt := 0, requestedTimestampSeconds := some ((0 : ℕ) : ℚ)
              appliedTimestampSeconds := some (((0 : ℕ) : ℚ) + 3)
              personGenerationUsed := some "ALLOW_ADULT" })],
         [.frameCall ((0 : ℕ) : ℚ), .frameCall (((0 : ℕ) : ℚ) + 8),
          .genCall ((0 : ℕ) : ℚ) "veo-3.1-fast-generate-preview" "ALLOW_ADULT" 8
            "FRAMEBYTES" "FRAMEBYTES",
          .genCall ((0 : ℕ) : ℚ) "veo-3.1-fast-generate-preview" "ALLOW_ALL" 8
            "FRAMEBYTES" "FRAMEBYTES",
          .frameCall (((0 : ℕ) : ℚ) + 3), .frameCall (((0 : ℕ) : ℚ) + 11),
          .genCall (((0 : ℕ) : ℚ) + 3) "veo-3.1-fast-generate-preview" "ALLOW_ADULT" 8
            "FRAMEBYTES" "FRAMEBYTES"]⟩) :=
  C1_blocked_retries_profile_then_shifts_candidate.2.2.2 0 frameAlwaysOk
    genBlockedAtZero samplePic sampleClip (fun _ => rfl)
    (fun mdl pg => by norm_num [genBlockedAtZero])
    (by norm_num [genBlockedAtZero])

/-! ## Success-path inversion: any returned non-cache-hit clip was written
to both cache layers and carries the timestamps -/

/-- Outcome analysis of the profile loop (cache not bypassed, positive
capacity, in-memory cache within capacity): a returned clip response has
`cacheHit = false`, is readable from both cache layers of the final state
under the request's cache key, carries the requested and applied
timestamps and the `"completed"` status, and keeps the in-memory cache
within capacity; the non-returning outcomes leave both cache layers
untouched. -/
theorem profileLoop_inv (ctx : OrchContext) (ts : ℚ) (model : String)
    (f l : ExtractedFrameImage) (hb : ctx.bypassCache = false)
    (hmax : 1 ≤ ctx.cfg.maxCacheEntries) :
    ∀ (ps : List SafetyProfile) (le : String) (st : OrchState),
      st.mem.length ≤ ctx.cfg.maxCacheEntries →
      (∀ c hit st', profileLoop ctx ts model f l ps le st =
          .report (.clipResponse c hit) st' →
        hit = false ∧ mapGet st'.mem ctx.cacheKey = some c ∧
        (ctx.cfg.persistEnabled = true → mapGet st'.disk ctx.cacheKey = some c) ∧
        c.requestedTimestampSeconds = some ctx.requestedTimestampSeconds ∧
        c.appliedTimestampSeconds = some ts ∧ c.status = "completed" ∧
        st'.mem.length ≤ ctx.cfg.maxCacheEntries) ∧
      (∀ le1 st1, profileLoop ctx ts model f l ps le st = .modelNext le1 st1 →
        st1.mem = st.mem ∧ st1.disk = st.disk) ∧
      (∀ le1 st1, profileLoop ctx ts model f l ps le st = .candidateNext le1 st1 →
        st1.mem = st.mem ∧ st1.disk = st.disk) := by
  intro ps
  induction ps with
  | nil =>
    intro le st hlen
    refine ⟨?_, ?_, ?_⟩
    · intro c hit st' h
      exact ProfileStep.noConfusion h
    · intro le1 st1 h
      injection h with h1 h2
      subst h2
      exact ⟨rfl, rfl⟩
    · intro le1 st1 h
      exact ProfileStep.noConfusion h
  | cons p rest ih =>
    intro le st hlen
    cases hg : ctx.gen ts model p.personGeneration with
    | ok clip =>
      rw [profileLoop_ok ctx ts model f l p rest le st clip hg hb]
      refine ⟨?_, ?_, ?_⟩
      · intro c hit st' h
        injection h with h1 h2
        injection h1 with h3 h4
        subst h2
        subst h3
        subst h4
        refine ⟨rfl, mapGet_writeCache_self _ _ _ _ hmax hlen, ?_, rfl, rfl, rfl,
          writeCache_length_le _ _ _ _ hlen⟩
        intro hp
        simp [writePersistentCache, hp, mapGet_mapSet_self]
      · intro le1 st1 h
        exact ProfileStep.noConfusion h
      · intro le1 st1 h
        exact ProfileStep.noConfusion h
    | err e =>
      by_cases h403 : e.code = 403 ∨ e.status = "PERMISSION_DENIED"
      · rw [profileLoop_perm ctx ts model f l p rest le st e hg h403]
        refine ⟨?_, ?_, ?_⟩
        · intro c hit st' h
          injection h with h1 h2
          exact VeoResponse.noConfusion h1
        · intro le1 st1 h
          exact ProfileStep.noConfusion h
        · intro le1 st1 h
          exact ProfileStep.noConfusion h
      · by_cases h429 : e.code = 429 ∨ e.status = "RESOURCE_EXHAUSTED"
        · rw [profileLoop_quota ctx ts model f l p rest le st e hg h403 h429]
          refine ⟨?_, ?_, ?_⟩
          · intro c hit st' h
            injection h with h1 h2
            exact VeoResponse.noConfusion h1
          · intro le1 st1 h
            exact ProfileStep.noConfusion h
          · intro le1 st1 h
            exact ProfileStep.noConfusion h
        · by_cases hretry : isBlockedInputImageError e.message = true ∨
              isMissingSampleError e.message = true
          · cases rest with
            | nil =>
              rw [profileLoop_abandon ctx ts model f l p le st e hg h403 h429 hretry]
              refine ⟨?_, ?_, ?_⟩
              · intro c hit st' h
                exact ProfileStep.noConfusion h
              · intro le1 st1 h
                exact ProfileStep.noConfusion h
              · intro le1 st1 h
                injection h with h1 h2
                subst h2
                exact ⟨rfl, rfl⟩
            | cons q rest2 =>
              rw [profileLoop_retry ctx ts model f l p q rest2 le st e hg h403 h429 hretry]
              exact ih e.message _ hlen
          · have hcls : isBlockedInputImageError e.message = false := by
              cases hx : isBlockedInputImageError e.message
              · rfl
              · exact absurd (Or.inl hx) hretry
            have hmis : isMissingSampleError e.message = false := by
              cases hx : isMissingSampleError e.message
              · rfl
              · exact absurd (Or.inr hx) hretry
            rw [profileLoop_other ctx ts model f l p rest le st e hg h403 h429 hcls hmis]
            refine ⟨?_, ?_, ?_⟩
            · intro c hit st' h
              exact ProfileStep.noConfusion h
            · intro le1 st1 h
              injection h with h1 h2
              subst h2
              exact ⟨rfl, rfl⟩
            · intro le1 st1 h
              exact ProfileStep.noConfusion h

/-- Outcome analysis of the model loop: same conclusions as
`profileLoop_inv`, lifted over the list of models. -/
theorem modelLoop_inv (ctx : OrchContext) (ts : ℚ) (f l : ExtractedFrameImage)
    (profiles : List SafetyProfile) (hb : ctx.bypassCache = false)
    (hmax : 1 ≤ ctx.cfg.maxCacheEntries) :
    ∀ (models : List String) (le : String) (st : OrchState),
      st.mem.length ≤ ctx.cfg.maxCacheEntries →
      (∀ c hit st', modelLoop ctx ts f l profiles models le st =
          .returned (.clipResponse c hit) st' →
        hit = false ∧ mapGet st'.mem ctx.cacheKey = some c ∧
        (ctx.cfg.persistEnabled = true → mapGet st'.disk ctx.cacheKey = some c) ∧
        c.requestedTimestampSeconds = some ctx.requestedTimestampSeconds ∧
        c.appliedTimestampSeconds = some ts ∧ c.status = "completed" ∧
        st'.mem.length ≤ ctx.cfg.maxCacheEntries) ∧
      (∀ le1 st1 b, modelLoop ctx ts f l profiles models le st =
          .candidateDone le1 st1 b →
        st1.mem = st.mem ∧ st1.disk = st.disk) := by
  intro models
  induction models with
  | nil =>
    intro le st hlen
    refine ⟨?_, ?_⟩
    · intro c hit st' h
      exact ModelStep.noConfusion h
    · intro le1 st1 b h
      injection h with h1 h2 h3
      subst h2
      exact ⟨rfl, rfl⟩
  | cons mdl rest ih =>
    intro le st hlen
    obtain ⟨hrep, hnext, hcand⟩ := profileLoop_inv ctx ts mdl f l hb hmax profiles le st hlen
    cases hpl : profileLoop ctx ts mdl f l profiles le st with
    | report resp st1 =>
      rw [modelLoop_report _ _ _ _ _ _ _ _ _ _ _ hpl]
      refine ⟨?_, ?_⟩
      · intro c hit st' h
        injection h with h1 h2
        rw [h1, h2] at hpl
        exact hrep c hit st' hpl
      · intro le1 st1' b h
        exact ModelStep.noConfusion h
    | modelNext le1 st1 =>
      rw [modelLoop_next _ _ _ _ _ _ _ _ _ _ _ hpl]
      obtain ⟨hm, hd⟩ := hnext le1 st1 hpl
      obtain ⟨ih1, ih2⟩ := ih le1 st1 (hm ▸ hlen)
      refine ⟨?_, ?_⟩
      · intro c hit st' h
        exact ih1 c hit st' h
      · intro le2 st2 b h
        obtain ⟨e1, e2⟩ := ih2 le2 st2 b h
        exact ⟨e1.trans hm, e2.trans hd⟩
    | candidateNext le1 st1 =>
      rw [modelLoop_abandon _ _ _ _ _ _ _ _ _ _ _ hpl]
      obtain ⟨hm, hd⟩ := hcand le1 st1 hpl
      refine ⟨?_, ?_⟩
      · intro c hit st' h
        exact ModelStep.noConfusion h
      · intro le2 st2 b h
        injection h with h1 h2 h3
        subst h2
        exact ⟨hm, hd⟩

/-- Outcome analysis of the candidate loop: a returned non-cache-hit clip
response was written to both cache layers. -/
theorem candidateLoop_inv (ctx : OrchContext) (profiles : List SafetyProfile)
    (hb : ctx.bypassCache = false) (hmax : 1 ≤ ctx.cfg.maxCacheEntries) :
    ∀ (cands : List ℚ) (le : String) (st : OrchState),
      st.mem.length ≤ ctx.cfg.maxCacheEntries →
      ∀ c hit st', candidateLoop ctx profiles cands le st = (.clipResponse c hit, st') →
        hit = false ∧ mapGet st'.mem ctx.cacheKey = some c ∧
        (ctx.cfg.persistEnabled = true → mapGet st'.disk ctx.cacheKey = some c) ∧
        c.requestedTimestampSeconds = some ctx.requestedTimestampSeconds ∧
        (∃ a, c.appliedTimestampSeconds = some a) ∧ c.status = "completed" := by
  intro cands
  induction cands with
  | nil =>
    intro le st hlen c hit st' h
    rw [candidateLoop_nil] at h
    have h1 : VeoResponse.allFailed le = .clipResponse c hit := congrArg Prod.fst h
    exact VeoResponse.noConfusion h1
  | cons ts rest ihc =>
    intro le st hlen c hit st' h
    cases hfr : frameAcquire ctx ts with
    | error msg =>
      rw [candidateLoop_frames_fail _ _ _ _ _ _ msg hfr] at h
      exact ihc _
        { st with calls := st.calls ++
            [.frameCall ts, .frameCall (ts + generatedDurationSeconds)] }
        hlen c hit st' h
    | ok fl =>
      obtain ⟨f, l⟩ := fl
      obtain ⟨hret, hdone⟩ := modelLoop_inv ctx ts f l profiles hb hmax
        ctx.cfg.models le
        { st with calls := st.calls ++
            [.frameCall ts, .frameCall (ts + generatedDurationSeconds)] } hlen
      cases hml : modelLoop ctx ts f l profiles ctx.cfg.models le
          { st with calls := st.calls ++
              [.frameCall ts, .frameCall (ts + generatedDurationSeconds)] } with
      | returned resp st2 =>
        rw [candidateLoop_returned _ _ _ _ _ _ f l resp st2 hfr hml] at h
        have h1 : resp = .clipResponse c hit := congrArg Prod.fst h
        have h2 : st2 = st' := congrArg Prod.snd h
        rw [h1, h2] at hml
        obtain ⟨o1, o2, o3, o4, o5, o6, _⟩ := hret c hit st' hml
        exact ⟨o1, o2, o3, o4, ⟨ts, o5⟩, o6⟩
      | candidateDone le1 st2 b =>
        cases b with
        | false =>
          rw [candidateLoop_break _ _ _ _ _ _ f l le1 st2 hfr hml] at h
          have h1 : VeoResponse.allFailed le1 = .clipResponse c hit := congrArg Prod.fst h
          exact VeoResponse.noConfusion h1
        | true =>
          rw [candidateLoop_blocked _ _ _ _ _ _ f l le1 st2 hfr hml] at h
          obtain ⟨hm, hd⟩ := hdone le1 st2 true hml
          exact ihc le1 st2 (hm ▸ hlen) c hit st' h

/-- POST-level success inversion: a non-bypass request that returns a
freshly generated clip (`cacheHit = false`) left that clip readable in the
in-memory cache — and in the durable cache when persistence is enabled —
under the request's cache key, and the clip carries the requested
timestamp, an applied timestamp, and the `"completed"` status. -/
theorem POSTmodel_success_inv (cfg : Config) (clientError : Option String)
    (frame : ℚ → Except String ExtractedFrameImage)
    (gen : ℚ → String → String → AttemptResult) (now : Nat)
    (body : VeoRequestBody) (mem disk : CacheMap) (product : AdProduct)
    (c : CachedClip) (st : OrchState)
    (hv : validateProduct body.product = some product)
    (hbp : ((body.bypassCache == some true) || cfg.disableCache) = false)
    (hmax : 1 ≤ cfg.maxCacheEntries)
    (hlen : mem.length ≤ cfg.maxCacheEntries)
    (h : POSTmodel cfg clientError frame gen now body mem disk =
      (.clipResponse c false, st)) :
    mapGet st.mem (cacheKeyOfRequest body product) = some c ∧
    (cfg.persistEnabled = true → mapGet st.disk (cacheKeyOfRequest body product) = some c) ∧
    c.requestedTimestampSeconds = some (requestTimestamp body) ∧
    (∃ a, c.appliedTimestampSeconds = some a) ∧ c.status = "completed" := by
  by_cases hid : sanitizeVideoId body.videoId = ""
  · exfalso
    simp only [POSTmodel, hv, hid] at h
    simp at h
  · simp only [POSTmodel, hv, hbp] at h
    rw [if_neg hid] at h
    simp only [Bool.false_eq_true, if_false] at h
    cases hmem : mapGet mem (cacheKeyOfRequest body product) with
    | some hit =>
      rw [hmem] at h
      exfalso
      have h1 : VeoResponse.clipResponse hit true = .clipResponse c false :=
        congrArg Prod.fst h
      injection h1 with h2 h3
      exact Bool.noConfusion h3
    | none =>
      rw [hmem] at h
      cases hdk : readPersistentCache cfg.persistEnabled disk
          (cacheKeyOfRequest body product) with
      | some dhit =>
        rw [hdk] at h
        exfalso
        have h1 : VeoResponse.clipResponse dhit true = .clipResponse c false :=
          congrArg Prod.fst h
        injection h1 with h2 h3
        exact Bool.noConfusion h3
      | none =>
        rw [hdk] at h
        cases clientError with
        | some msg =>
          exact absurd (congrArg Prod.fst h) (by simp)
        | none =>
          have := candidateLoop_inv
            { cfg := cfg, gen := gen, frame := frame, now := now
              cacheKey := cacheKeyOfRequest body product
              bypassCache := false
              requestedTimestampSeconds := requestTimestamp body }
            (getSafetyProfiles cfg.defaultPersonGeneration cfg.enableFaceSafetyRetry)
            rfl hmax
            (buildTimestampCandidates cfg.offsets (requestTimestamp body))
            "Unknown Veo generation failure." ⟨mem, disk, []⟩ hlen c false st h
          exact ⟨this.2.1, this.2.2.1, this.2.2.2.1, this.2.2.2.2.1, this.2.2.2.2.2⟩

/-! ## C7 — Success writes both cache layers (corrected: only when the
cache is not bypassed) -/

/-- C7 (amended): for every *non-bypass* request that ends in a successful
generation, the assembled clip is written to the in-memory cache — and to
the durable cache when persistence is enabled — under the request's cache
key, in the state in which the response is returned; and the response
carries `cacheHit = false` together with the applied (possibly shifted)
timestamp and the requested timestamp.  (A bypass request skips both
writes; see the counterexample.) -/
theorem C7_success_writes_both_caches (cfg : Config) (clientError : Option String)
    (frame : ℚ → Except String ExtractedFrameImage)
    (gen : ℚ → String → String → AttemptResult) (now : Nat)
    (body : VeoRequestBody) (mem disk : CacheMap) (product : AdProduct)
    (c : CachedClip) (st : OrchState)
    (hv : validateProduct body.product = some product)
    (hbp : ((body.bypassCache == some true) || cfg.disableCache) = false)
    (hmax : 1 ≤ cfg.maxCacheEntries)
    (hlen : mem.length ≤ cfg.maxCacheEntries)
    (h : POSTmodel cfg clientError frame gen now body mem disk =
      (.clipResponse c false, st)) :
    mapGet st.mem (cacheKeyOfRequest body product) = some c ∧
    (cfg.persistEnabled = true →
      mapGet st.disk (cacheKeyOfRequest body product) = some c) ∧
    c.requestedTimestampSeconds = some (requestTimestamp body) ∧
    (∃ a, c.appliedTimestampSeconds = some a) ∧ c.status = "completed" :=
  POSTmodel_success_inv cfg clientError frame gen now body mem disk product c st
    hv hbp hmax hlen h

/-- The response of the successful sample run at timestamp 0. -/
def sampleRunResponse : CachedClip :=
  { jobId := "op-1", status := "completed",
    modelUsed := "veo-3.1-fast-generate-preview", mimeType := "video/mp4",
    sourceUri := none, videoUrl := "data:video/mp4;base64,VIDBYTES", cachedAt := 0,
    requestedTimestampSeconds := some 0, appliedTimestampSeconds := some 0,
    personGenerationUsed := some "ALLOW_ADULT" }

/-- A concrete successful non-bypass run: first candidate, first model,
first profile succeed; both cache layers hold the response. -/
theorem POSTmodel_sampleRunZero :
    POSTmodel {} none frameAlwaysOk genAlwaysOk 0 (sampleBody 0) [] [] =
      (.clipResponse sampleRunResponse false,
        ⟨[(cacheKeyOfRequest (sampleBody 0) sampleAdProduct, sampleRunResponse)],
         [(cacheKeyOfRequest (sampleBody 0) sampleAdProduct, sampleRunResponse)],
         [.frameCall 0, .frameCall 8,
          .genCall 0 "veo-3.1-fast-generate-preview" "ALLOW_ADULT" 8
            "FRAMEBYTES" "FRAMEBYTES"]⟩) := by
  have hv : validateProduct (sampleBody 0).product = some sampleAdProduct :=
    validateProduct_sample
  have hreq : requestTimestamp (sampleBody 0) = ((0 : ℕ) : ℚ) := by
    norm_num [requestTimestamp, sampleBody]
  obtain ⟨rest, hc⟩ := buildTimestampCandidates_natCast 0
  norm_num at hc
  rw [POSTmodel_entry {} frameAlwaysOk genAlwaysOk 0 (sampleBody 0) [] []
    sampleAdProduct hv (by decide) rfl rfl rfl]
  rw [hreq]
  norm_num
  rw [hc, getSafetyProfiles_default]
  simp only [candidateLoop, frameAcquire, frameAlwaysOk, except_ok_bind,
    except_pure_eq_ok, modelLoop, profileLoop, genAlwaysOk]
  norm_num [successResponse, generatedDurationSeconds_eq, writeCache, mapSet,
    writePersistentCache, sampleRunResponse, sampleClip, samplePic]
  decide

/-- Concrete instance of `C7_success_writes_both_caches` at the sample run. -/
theorem C7_success_writes_both_caches_witness :
    mapGet (⟨[(cacheKeyOfRequest (sampleBody 0) sampleAdProduct, sampleRunResponse)],
        [(cacheKeyOfRequest (sampleBody 0) sampleAdProduct, sampleRunResponse)],
        [.frameCall 0, .frameCall 8,
         .genCall 0 "veo-3.1-fast-generate-preview" "ALLOW_ADULT" 8
           "FRAMEBYTES" "FRAMEBYTES"]⟩ : OrchState).mem
      (cacheKeyOfRequest (sampleBody 0) sampleAdProduct) = some sampleRunResponse ∧
    (({} : Config).persistEnabled = true →
      mapGet (⟨[(cacheKeyOfRequest (sampleBody 0) sampleAdProduct, sampleRunResponse)],
          [(cacheKeyOfRequest (sampleBody 0) sampleAdProduct, sampleRunResponse)],
          [.frameCall 0, .frameCall 8,
           .genCall 0 "veo-3.1-fast-generate-preview" "ALLOW_ADULT" 8
             "FRAMEBYTES" "FRAMEBYTES"]⟩ : OrchState).disk
        (cacheKeyOfRequest (sampleBody 0) sampleAdProduct) = some sampleRunResponse) ∧
    sampleRunResponse.requestedTimestampSeconds = some (requestTimestamp (sampleBody 0)) ∧
    (∃ a, sampleRunResponse.appliedTimestampSeconds = some a) ∧
    sampleRunResponse.status = "completed" :=
  C7_success_writes_both_caches {} none frameAlwaysOk genAlwaysOk 0 (sampleBody 0)
    [] [] sampleAdProduct sampleRunResponse _ validateProduct_sample rfl
    (by decide) (by decide) POSTmodel_sampleRunZero

/-- A bypass request: identical to `sampleBody 0` with `bypassCache: true`. -/
def bypassBody : VeoRequestBody := { sampleBody 0 with bypassCache := some true }

/-- C7 counterexample: a `bypassCache` request that ends in a successful
generation returns the clip with `cacheHit = false` but writes NEITHER
cache layer — both stay empty — contradicting the claim that every request
ending in successful generation writes the clip to both caches before the
response is returned. -/
theorem C7_counterexample :
    POSTmodel {} none frameAlwaysOk genAlwaysOk 0 bypassBody [] [] =
      (.clipResponse sampleRunResponse false,
        ⟨[], [],
         [.frameCall 0, .frameCall 8,
          .genCall 0 "veo-3.1-fast-generate-preview" "ALLOW_ADULT" 8
            "FRAMEBYTES" "FRAMEBYTES"]⟩) := by
  have hv : validateProduct bypassBody.product = some sampleAdProduct := by decide
  have hreq : requestTimestamp bypassBody = ((0 : ℕ) : ℚ) := by
    norm_num [requestTimestamp, bypassBody, sampleBody]
  obtain ⟨rest, hc⟩ := buildTimestampCandidates_natCast 0
  norm_num at hc
  rw [POSTmodel_entry_bypass {} frameAlwaysOk genAlwaysOk 0 bypassBody [] []
    sampleAdProduct hv (by decide) rfl]
  rw [hreq]
  norm_num
  rw [hc, getSafetyProfiles_default]
  simp only [candidateLoop, frameAcquire, frameAlwaysOk, except_ok_bind,
    except_pure_eq_ok, modelLoop, profileLoop, genAlwaysOk]
  norm_num [successResponse, generatedDurationSeconds_eq, sampleRunResponse,
    sampleClip, samplePic]
  decide

/-! ## C4 — Cache key excludes the scene context; second call is a hit -/

/-- C4: the cache key is a deterministic function of videoId, the
millisecond-rounded timestamp, duration, product id, style, aspect ratio,
resolution, and seed-or-auto, and the scene-context text is excluded
entirely; consequently, after a first non-bypass request succeeds with a
fresh clip, any second non-bypass request agreeing on those key fields —
whatever its sceneContext — is answered from the cache with
`cacheHit = true` and the identical clip content, without consulting the
generation oracle at all. -/
theorem C4_cache_key_excludes_context_second_call_hits (cfg : Config)
    (clientError2 : Option String)
    (frame1 gen1Frame2 : ℚ → Except String ExtractedFrameImage)
    (gen1 gen2 : ℚ → String → String → AttemptResult) (now1 now2 : Nat)
    (b1 b2 : VeoRequestBody) (p1 p2 : AdProduct) (c : CachedClip) (st : OrchState)
    (hv1 : validateProduct b1.product = some p1)
    (hv2 : validateProduct b2.product = some p2)
    (hvid : sanitizeVideoId b1.videoId = sanitizeVideoId b2.videoId)
    (hts : ⌊requestTimestamp b1 * 1000⌋ = ⌊requestTimestamp b2 * 1000⌋)
    (hpid : p1.id = p2.id)
    (hstyle : requestStyle b1 = requestStyle b2)
    (har : requestAspectRatio b1 = requestAspectRatio b2)
    (hres : requestResolution b1 = requestResolution b2)
    (hseed : seedToken b1 = seedToken b2)
    (hb1 : (b1.bypassCache == some true) = false)
    (hb2 : (b2.bypassCache == some true) = false)
    (hdc : cfg.disableCache = false)
    (hmax : 1 ≤ cfg.maxCacheEntries)
    (hrun1 : POSTmodel cfg none frame1 gen1 now1 b1 [] [] =
      (.clipResponse c false, st)) :
    (∀ ctxt : Option String,
      cacheKeyOfRequest { b1 with context := ctxt } p1 = cacheKeyOfRequest b1 p1) ∧
    cacheKeyOfRequest b1 p1 = cacheKeyOfRequest b2 p2 ∧
    POSTmodel cfg clientError2 gen1Frame2 gen2 now2 b2 st.mem st.disk =
      (.clipResponse c true, ⟨st.mem, st.disk, []⟩) := by
  have hkey : cacheKeyOfRequest b1 p1 = cacheKeyOfRequest b2 p2 := by
    simp only [cacheKeyOfRequest, buildCacheKey]
    rw [hvid, hts, hpid, hstyle, har, hres, hseed]
  have hbp1 : ((b1.bypassCache == some true) || cfg.disableCache) = false := by
    rw [hb1, hdc]
    rfl
  have hget := POSTmodel_success_inv cfg none frame1 gen1 now1 b1 [] [] p1 c st
    hv1 hbp1 hmax (by simp) hrun1
  have hid2 : ¬sanitizeVideoId b2.videoId = "" := by
    intro h0
    have hid1 : sanitizeVideoId b1.videoId = "" := by rw [hvid, h0]
    simp only [POSTmodel, hv1, hid1] at hrun1
    simp at hrun1
  refine ⟨fun _ => rfl, hkey, ?_⟩
  have hbp2 : ((b2.bypassCache == some true) || cfg.disableCache) = false := by
    rw [hb2, hdc]
    rfl
  simp only [POSTmodel, hv2, hbp2]
  rw [if_neg hid2]
  simp only [Bool.false_eq_true, if_false]
  rw [← hkey, hget.1]

/-- Second request of the C4 witness: same key fields as `sampleBody 0`,
different scene context. -/
def contextBody : VeoRequestBody :=
  { sampleBody 0 with context := some "a completely different scene description" }

/-- Concrete instance of `C4_cache_key_excludes_context_second_call_hits`:
after the successful sample run, a request differing only in sceneContext
is served from the cache with identical content, `cacheHit = true`, no
external calls — even with a failing generation oracle. -/
theorem C4_cache_key_excludes_context_second_call_hits_witness :
    (∀ ctxt : Option String,
      cacheKeyOfRequest { sampleBody 0 with context := ctxt } sampleAdProduct =
        cacheKeyOfRequest (sampleBody 0) sampleAdProduct) ∧
    cacheKeyOfRequest (sampleBody 0) sampleAdProduct =
      cacheKeyOfRequest contextBody sampleAdProduct ∧
    POSTmodel {} (some "credentials do not matter here") frameAlwaysOk
      genFailsAtZero 99 contextBody
      [(cacheKeyOfRequest (sampleBody 0) sampleAdProduct, sampleRunResponse)]
      [(cacheKeyOfRequest (sampleBody 0) sampleAdProduct, sampleRunResponse)] =
      (.clipResponse sampleRunResponse true,
        ⟨[(cacheKeyOfRequest (sampleBody 0) sampleAdProduct, sampleRunResponse)],
         [(cacheKeyOfRequest (sampleBody 0) sampleAdProduct, sampleRunResponse)], []⟩) :=
  C4_cache_key_excludes_context_second_call_hits {}
    (some "credentials do not matter here") frameAlwaysOk frameAlwaysOk
    genAlwaysOk genFailsAtZero 0 99 (sampleBody 0) contextBody
    sampleAdProduct sampleAdProduct sampleRunResponse
    ⟨[(cacheKeyOfRequest (sampleBody 0) sampleAdProduct, sampleRunResponse)],
     [(cacheKeyOfRequest (sampleBody 0) sampleAdProduct, sampleRunResponse)],
     [.frameCall 0, .frameCall 8,
      .genCall 0 "veo-3.1-fast-generate-preview" "ALLOW_ADULT" 8
        "FRAMEBYTES" "FRAMEBYTES"]⟩
    validateProduct_sample (by decide) rfl rfl rfl rfl rfl rfl rfl rfl rfl rfl
    (by decide) POSTmodel_sampleRunZero

end Breakout
